import Mathlib

/-!
Verification of the progression core of the xianxia idle game
(`src/js/main.js`).

Modelling conventions:
* JavaScript numbers are modelled as exact rationals (`ℚ`); `Math.floor`
  becomes `Int.floor`.  Where `NaN`/`Infinity` propagation is essential
  (the bulk-purchase cost system) a dedicated type `JSN` with JavaScript
  special-value semantics is used.
* Transcendental library calls (`Math.exp`, `Math.log`, `Math.expm1`,
  `Math.sqrt`) are abstracted into a parameter structure `TransFns`,
  because none of the verified properties depends on their finite values;
  `Math.floor(Math.sqrt(x))` in the karma computation is translated
  exactly via `Nat.sqrt` (valid for the reachable domain `x ≥ 0`).
* The finiteness checks `Number.isFinite`/`safeNum` on plain rationals are
  identities in this model and are noted where they occur in the source.
* Where JavaScript declares the same function twice (`skillRealmScale`,
  `effectiveSkillBase`), the later declaration wins; the translation uses
  the effective (later) definitions at lines 2112 and 2161.
-/

namespace Xianxia

/-! ### Stage cost model (main.js lines 547-629)

The configured values are the built-in defaults of `BAL`
(`realmBase = 80`, `realmBaseScale = 5`, `stageScale = 1.42`), which the
runtime validator leaves unchanged.  `EFFECTIVE_REALM_SCALE` is the cached
`max(realmBaseScale, stageScale^9)` of lines 580-583.

The karma discount `karmaReduction = 1.0 / karmaStageMult(karma)` (lines
1517-1519 and 2224-2226) is the only non-rational ingredient; it is passed
in as a parameter `d`.  Since `karmaStageMult(k) = 1 + 0.6·(1 − e^(−0.03k))`
ranges over `[1, 1.6)` for `k ≥ 0`, the discount ranges over `(5/8, 1]`. -/

/-- `CROSS_REALM_JUMP` (main.js line 555): 1.25. -/
def CROSS_REALM_JUMP : ℚ := 5 / 4

/-- Default `BAL.stageRequirement.realmBase` (main.js line 166). -/
def srRealmBase : ℚ := 80

/-- Default `BAL.stageRequirement.realmBaseScale` (main.js line 167). -/
def srRealmBaseScale : ℚ := 5

/-- Default `BAL.stageRequirement.stageScale` (main.js line 168): 1.42. -/
def srStageScale : ℚ := 71 / 50

/-- `MIN_REALM_SCALE = Math.pow(stageScale, 9)` (main.js line 582). -/
def MIN_REALM_SCALE : ℚ := srStageScale ^ 9

/-- `EFFECTIVE_REALM_SCALE = Math.max(realmBaseScale, MIN_REALM_SCALE)`
(main.js line 583). -/
def EFFECTIVE_REALM_SCALE : ℚ := max srRealmBaseScale MIN_REALM_SCALE

/-- `baseRequirementFor(realmIndex, stage)` (main.js lines 573-599). -/
def baseRequirementFor (realmIndex stage : ℕ) : ℤ :=
  if realmIndex = 0 then (stage * 10 : ℤ)
  else ⌊srRealmBase * EFFECTIVE_REALM_SCALE ^ realmIndex * srStageScale ^ (stage - 1)⌋

/-- `stageRequirement(realmIndex, stage)` (main.js lines 608-629) with the
karma reduction `d = karmaStageBonus()` passed explicitly. -/
def stageRequirement (realmIndex stage : ℕ) (d : ℚ) : ℤ :=
  let baseReq := baseRequirementFor realmIndex stage
  let req := ⌊(baseReq : ℚ) * d⌋
  if 0 < realmIndex ∧ stage = 1 then
    let prevStage10 := ⌊(baseRequirementFor (realmIndex - 1) 10 : ℚ) * d⌋
    max req ⌊(prevStage10 : ℚ) * CROSS_REALM_JUMP⌋
  else req

/-! ### Abstract transcendental functions

Values of `Math.exp`, `Math.log`, `Math.expm1` and `Math.sqrt` on finite
arguments.  All theorems below hold for arbitrary instantiations. -/

structure TransFns where
  exp : ℚ → ℚ
  ln : ℚ → ℚ
  expm1 : ℚ → ℚ
  sqrt : ℚ → ℚ

/-- A concrete instantiation used only to build witnesses and
counterexamples (`exp 0 = 1` matches the real exponential where it is
evaluated there). -/
def F0 : TransFns where
  exp := fun _ => 1
  ln := fun _ => 0
  expm1 := fun _ => 0
  sqrt := fun _ => 0

/-! ### JavaScript numbers with special values (for the cost system) -/

/-- A JavaScript number: finite, `+Infinity`, `-Infinity`, or `NaN`. -/
inductive JSN where
  | fin (q : ℚ)
  | inf
  | ninf
  | nan
deriving DecidableEq, Repr

namespace JSN

def isFinite : JSN → Bool
  | fin _ => true
  | _ => false

def add : JSN → JSN → JSN
  | nan, _ => nan
  | _, nan => nan
  | inf, ninf => nan
  | ninf, inf => nan
  | inf, _ => inf
  | _, inf => inf
  | ninf, _ => ninf
  | _, ninf => ninf
  | fin a, fin b => fin (a + b)

def neg : JSN → JSN
  | nan => nan
  | inf => ninf
  | ninf => inf
  | fin a => fin (-a)

def sub (a b : JSN) : JSN := add a (neg b)

def mul : JSN → JSN → JSN
  | nan, _ => nan
  | _, nan => nan
  | inf, inf => inf
  | inf, ninf => ninf
  | ninf, inf => ninf
  | ninf, ninf => inf
  | inf, fin b => if b = 0 then nan else if 0 < b then inf else ninf
  | fin a, inf => if a = 0 then nan else if 0 < a then inf else ninf
  | ninf, fin b => if b = 0 then nan else if 0 < b then ninf else inf
  | fin a, ninf => if a = 0 then nan else if 0 < a then ninf else inf
  | fin a, fin b => fin (a * b)

/-- JavaScript `<` (false whenever an operand is `NaN`). -/
def blt : JSN → JSN → Bool
  | nan, _ => false
  | _, nan => false
  | ninf, ninf => false
  | ninf, _ => true
  | _, ninf => false
  | inf, _ => false
  | fin _, inf => true
  | fin a, fin b => decide (a < b)

/-- JavaScript `<=` (false whenever an operand is `NaN`). -/
def ble : JSN → JSN → Bool
  | nan, _ => false
  | _, nan => false
  | ninf, _ => true
  | _, ninf => false
  | _, inf => true
  | inf, fin _ => false
  | fin a, fin b => decide (a ≤ b)

/-- JavaScript `Math.min` (NaN-propagating). -/
def jmin : JSN → JSN → JSN
  | nan, _ => nan
  | _, nan => nan
  | ninf, _ => ninf
  | _, ninf => ninf
  | inf, b => b
  | a, inf => a
  | fin a, fin b => fin (min a b)

/-- `Math.log` lifted to JavaScript numbers; finite positive values go
through the abstract `TransFns.ln`. -/
def lnJ (F : TransFns) : JSN → JSN
  | nan => nan
  | inf => inf
  | ninf => nan
  | fin q => if q < 0 then nan else if q = 0 then ninf else fin (F.ln q)

/-- `Math.expm1` lifted to JavaScript numbers. -/
def expm1J (F : TransFns) : JSN → JSN
  | nan => nan
  | inf => inf
  | ninf => fin (-1)
  | fin q => fin (F.expm1 q)

end JSN

/-! ### Balance configuration (validated values) -/

/-- Per-skill configuration entry (catalog entry built by
`getSkillCatalog`, main.js lines 1551-1584).  `base`, `value`,
`ranksPerRealm` and `capPctPerRealm` may be absent (`undefined`). -/
structure SkillDef where
  oneTime : Bool
  cost : ℚ
  costScale : ℚ
  base : Option ℚ
  value : Option ℚ
  ranksPerRealm : Option ℕ
  capPctPerRealm : Option ℚ
deriving DecidableEq, Repr

structure CycleDef where
  realms : List ℕ
  realmBonus : ℚ
deriving DecidableEq, Repr

structure CycleDefs where
  mortal : CycleDef
  spirit : CycleDef
deriving DecidableEq, Repr

/-- The balance table fields read by the embedded functions, after the
boot-time run of `validateBalanceConfig`. -/
structure Balance where
  skills : List (String × SkillDef)
  qpcBaseStart : ℚ
  qpsBaseStart : ℚ
  qpcBaseAdd : ℚ
  qpsBaseAdd : ℚ
  karmaPerUnit : ℚ
  lifetimeQiDivisor : ℚ
  realmKarmaFactor : ℚ
  minKarma : ℚ
  deathPenalty : ℚ
  offlineKarmaBonus : Option ℚ
  capHours : ℚ
  realmMaxLifespan : List (Option ℚ)
  yearsPerSecond : ℚ
  qpcFlatPerRank : Option ℚ
  qpsFlatPerRank : Option ℚ
  cycleDefinitions : Option CycleDefs

/-- JavaScript `x || d` for a possibly-absent number (`0`, like `undefined`,
falls through to the default). -/
def jsOr (x : Option ℚ) (d : ℚ) : ℚ :=
  match x with
  | some v => if v = 0 then d else v
  | none => d

/-- The built-in default balance table (main.js lines 157-192) after the
boot-time validator pass: `deathPenalty` is installed as 0.5 and
`yearsPerSecond = 0.5` is clamped to 0.1; everything else is unchanged.
None of the five built-in skills carries `ranksPerRealm`, `oneTime`,
`value` or `capPctPerRealm`. -/
def defaultBal : Balance where
  skills :=
    [("breath_control",   ⟨false, 20, 61 / 50, some (6 / 5), none, none, none⟩),
     ("meridian_flow",    ⟨false, 45, 63 / 50, some 2, none, none, none⟩),
     ("lotus_meditation", ⟨false, 140, 27 / 20, some (1 / 4), none, none, none⟩),
     ("dantian_temps",    ⟨false, 110, 133 / 100, some (9 / 50), none, none, none⟩),
     ("closed_door",      ⟨false, 150, 69 / 50, some (7 / 20), none, none, none⟩)]
  qpcBaseStart := 1
  qpsBaseStart := 0
  qpcBaseAdd := 5 / 2
  qpsBaseAdd := 9 / 5
  karmaPerUnit := 3 / 25
  lifetimeQiDivisor := 5000
  realmKarmaFactor := 4
  minKarma := 3
  deathPenalty := 1 / 2
  offlineKarmaBonus := none
  capHours := 16
  realmMaxLifespan :=
    [some 50, some 100, some 200, some 500, some 1000, some 3000,
     some 10000, some 50000, some 100000, some 500000, none]
  yearsPerSecond := 1 / 10
  qpcFlatPerRank := none
  qpsFlatPerRank := none
  cycleDefinitions := none

/-- Catalog lookup `getSkill(id)` (main.js line 1816). -/
def getSkill (bal : Balance) (id : String) : Option SkillDef :=
  (bal.skills.find? (fun p => p.1 == id)).map Prod.snd

/-! ### Log-space bulk cost system (main.js lines 1839-1998) -/

/-- `LOG_MAX` (main.js line 1845): log-space overflow guard, `≈ ln(1e300)`. -/
def LOG_MAX : ℚ := 690

/-- `lnTotalCost(sk, currentLevel, qty)` (main.js lines 1883-1909).  The
quantity flows in as a JavaScript number because `totalSkillCost` feeds it
`Math.min(qty, cap − currentRanks)`, which is `NaN` when `ranksPerRealm`
is absent. -/
def lnTotalCost (F : TransFns) (sk : SkillDef) (currentLevel : ℕ) (qty : JSN) : JSN :=
  if JSN.ble qty (.fin 0) then .ninf
  else
    let lnCost := JSN.lnJ F (.fin sk.cost)
    let lnR := JSN.lnJ F (.fin sk.costScale)
    let lnC0 := JSN.add lnCost (JSN.mul (.fin (currentLevel : ℚ)) lnR)
    if |sk.costScale - 1| < 1 / 10000 then
      JSN.add (JSN.lnJ F qty) lnC0
    else
      let qtyLnR := JSN.mul qty lnR
      let lnNumerator :=
        if JSN.blt (.fin 30) qtyLnR then qtyLnR
        else JSN.lnJ F (JSN.expm1J F qtyLnR)
      let lnDenominator := JSN.lnJ F (.fin (sk.costScale - 1))
      JSN.add lnC0 (JSN.sub lnNumerator lnDenominator)

/-- The rank cap as a JavaScript number: `undefined` (absent
`ranksPerRealm`) behaves as `NaN` under subtraction. -/
def capJN (sk : SkillDef) : JSN :=
  match sk.ranksPerRealm with
  | some c => .fin (c : ℚ)
  | none => .nan

/-- `Math.min(qty, cap - currentRanks)` of `totalSkillCost` /
`maxAffordableQty`. -/
def actualQtyJ (sk : SkillDef) (currentRanks : ℕ) (qty : ℤ) : JSN :=
  JSN.jmin (.fin (qty : ℚ)) (JSN.sub (capJN sk) (.fin (currentRanks : ℚ)))

/-- `totalSkillCost(skillId, qty)` (main.js lines 1919-1949), with the
skill's catalog entry and `currentRealmRanks(skillId)` passed explicitly.
When `ranksPerRealm` is absent, `cap - currentRanks` is `NaN`, `NaN ≤ 0`
is false, and the `NaN` quantity drives `lnTotalCost` to `NaN`, so the
overflow guard returns the `1e300` sentinel.  (`exp(lnCost)` is finite in
JavaScript as well because the guard bounds `lnCost ≤ 690 < ln(MAX_VALUE)`;
the subsequent `Number.isFinite(cost)` re-check is therefore vacuous.) -/
def totalSkillCost (F : TransFns) (sk : SkillDef) (currentRanks : ℕ) (qty : ℤ) : JSN :=
  if qty ≤ 0 then .fin 0
  else if sk.oneTime then .fin sk.cost
  else
    let actualQty := actualQtyJ sk currentRanks qty
    if JSN.ble actualQty (.fin 0) then .inf
    else
      match lnTotalCost F sk currentRanks actualQty with
      | .fin l =>
          if LOG_MAX < l then .fin (10 ^ 300)
          else .fin ((max 0 ⌊F.exp l⌋ : ℤ) : ℚ)
      | _ => .fin (10 ^ 300)

/-- `Math.ceil((lo + hi) / 2)` of the binary search. -/
def jsMid (lo hi : ℤ) : ℤ := ⌈((lo + hi : ℤ) : ℚ) / 2⌉

lemma jsMid_gt (lo hi : ℤ) (h : lo < hi) : lo < jsMid lo hi := by
  unfold jsMid
  rw [Int.lt_ceil]
  have : ((lo : ℚ) + lo) / 2 < ((lo : ℚ) + hi) / 2 := by
    have : (lo : ℚ) < (hi : ℚ) := by exact_mod_cast h
    linarith
  push_cast
  linarith

lemma jsMid_le (lo hi : ℤ) (h : lo < hi) : jsMid lo hi ≤ hi := by
  unfold jsMid
  rw [Int.ceil_le]
  have : (lo : ℚ) < (hi : ℚ) := by exact_mod_cast h
  push_cast
  linarith

/-- The `while (lo < hi)` loop of `maxAffordableQty` (main.js lines
1983-1995). -/
def bsearchAfford (F : TransFns) (sk : SkillDef) (currentRanks : ℕ) (lnBudget : ℚ)
    (lo hi : ℤ) : ℤ :=
  if h : lo < hi then
    let mid := jsMid lo hi
    let lnCost := lnTotalCost F sk currentRanks (.fin (mid : ℚ))
    if ¬JSN.isFinite lnCost ∨ JSN.blt (.fin LOG_MAX) lnCost then
      bsearchAfford F sk currentRanks lnBudget lo (mid - 1)
    else if JSN.ble lnCost (.fin lnBudget) then
      bsearchAfford F sk currentRanks lnBudget mid hi
    else
      bsearchAfford F sk currentRanks lnBudget lo (mid - 1)
  else lo
termination_by (hi - lo).toNat
decreasing_by
  · have h1 := jsMid_gt lo hi h
    have h2 := jsMid_le lo hi h
    simp only [jsMid] at h1 h2 ⊢
    omega
  · have h1 := jsMid_gt lo hi h
    have h2 := jsMid_le lo hi h
    simp only [jsMid] at h1 h2 ⊢
    omega

/-- `maxAffordableQty(skillId, maxQty, budgetQi)` (main.js lines
1960-1998).  When `ranksPerRealm` is absent, `maxPossible =
Math.min(maxQty, NaN) = NaN`: the guard `NaN ≤ 0` is false, but the loop
test `0 < NaN` is also false, so the loop body never runs and `lo = 0` is
returned. -/
def maxAffordableQty (F : TransFns) (sk : SkillDef) (currentRanks : ℕ)
    (maxQty : ℤ) (budgetQi : ℚ) : ℤ :=
  if budgetQi ≤ 0 ∨ maxQty ≤ 0 then 0
  else if sk.oneTime then (if sk.cost ≤ budgetQi then 1 else 0)
  else
    match sk.ranksPerRealm with
    | none => 0
    | some cap =>
        let maxPossible : ℤ := min maxQty ((cap : ℤ) - (currentRanks : ℤ))
        if maxPossible ≤ 0 then 0
        else bsearchAfford F sk currentRanks (F.ln (max 1 budgetQi)) 0 maxPossible

/-! ### Cultivation state (the mutable root `S`, main.js lines 1259-1297) -/

/-- A `S.skills[id]` record: either a rank record `{total, perRealm}` or a
purchased one-time technique. -/
structure RankRec where
  purchasedOneTime : Bool
  total : ℤ
  perRealm : ℕ → ℕ

structure ReincS where
  times : ℕ
  karma : ℚ
  lifetimeQi : ℚ

structure LifespanS where
  current : Option ℚ
  max : Option ℚ

structure TimeSpeedS where
  current : ℚ
  paused : Bool

inductive CycleName where
  | mortal
  | spirit
deriving DecidableEq, Repr

structure FlagsS where
  unlockedBeyondSpirit : Bool
  hasUnlockedSpiritCycle : Bool
  hasCompletedMandatoryST10 : Bool
  canManualReincarnate : Bool
  lifespanHandled : Bool

structure LifecycleS where
  isReincarnating : Bool
  lastDeathAt : ℤ
  lastReincarnateAt : ℤ

structure MetaS where
  unlockedSpeeds : List ℚ

/-- The snapshot written by `saveSessionSnapshot` (main.js lines 3903-3919). -/
structure SessionS where
  lastTs : ℤ
  lastSpeed : ℚ
  lastRealmIndex : ℕ
  lastQi : ℚ

structure GState where
  qi : ℚ
  qpcBase : ℚ
  qpsBase : ℚ
  qpcMult : ℚ
  qpsMult : ℚ
  offlineMult : ℚ
  realmIndex : ℕ
  stage : ℕ
  lastTick : ℤ
  skills : String → Option RankRec
  reinc : ReincS
  lifespan : LifespanS
  age : ℚ
  isDead : Bool
  timeSpeed : TimeSpeedS
  currentCycle : CycleName
  flags : FlagsS
  lifecycle : LifecycleS
  deaths : ℕ
  meta : MetaS
  session : Option SessionS

/-- Program state: the cultivation state plus the module-level
`isHandlingDeath` flag (main.js line 2567) and a ghost counter
`handlerRuns` instrumenting every invocation of `handleLifespanEnd`. -/
structure World where
  s : GState
  handlingDeath : Bool
  handlerRuns : ℕ

/-! ### Skill ledger accessors (main.js lines 1593-1629) -/

/-- `currentRealmRanks(id)` (main.js lines 1593-1597). -/
def currentRealmRanks (s : GState) (id : String) : ℕ :=
  match s.skills id with
  | none => 0
  | some r => if r.purchasedOneTime then 0 else r.perRealm s.realmIndex

/-- `addRealmRank(id, n)` (main.js lines 1604-1612). -/
def addRealmRank (s : GState) (id : String) (n : ℕ) : GState :=
  let old := (s.skills id).getD { purchasedOneTime := false, total := 0, perRealm := fun _ => 0 }
  let cur := currentRealmRanks s id
  { s with skills := fun j =>
      if j = id then
        some { old with
          total := old.total + n,
          perRealm := fun k => if k = s.realmIndex then cur + n else old.perRealm k }
      else s.skills j }

/-- `isTechniquePurchased(id)` (main.js lines 1619-1621). -/
def isTechniquePurchased (s : GState) (id : String) : Bool :=
  match s.skills id with
  | some r => r.purchasedOneTime
  | none => false

/-- `purchaseTechnique(id)` (main.js lines 1627-1629). -/
def purchaseTechnique (s : GState) (id : String) : GState :=
  { s with skills := fun j =>
      if j = id then some { purchasedOneTime := true, total := 1, perRealm := fun _ => 0 }
      else s.skills j }

/-! ### Karma / power multipliers (main.js lines 1491-1547, 2112-2165) -/

/-- `karmaQiMult(karma)` (main.js lines 1498-1500). -/
def karmaQiMult (F : TransFns) (karma : ℚ) : ℚ :=
  1 + (6 / 5) * (1 - F.exp (-(1 / 25) * karma))

/-- `karmaLifeMult(karma)` (main.js lines 1507-1509). -/
def karmaLifeMult (F : TransFns) (karma : ℚ) : ℚ :=
  1 + (3 / 2) * (1 - F.exp (-(3 / 100) * karma))

/-- `karmaStageMult(karma)` (main.js lines 1517-1519). -/
def karmaStageMult (F : TransFns) (karma : ℚ) : ℚ :=
  1 + (3 / 5) * (1 - F.exp (-(3 / 100) * karma))

/-- `cyclePowerMult(realmIndex)` (main.js lines 1527-1547); with the
default balance (`cycleDefinitions` absent) it is 1. -/
def cyclePowerMult (bal : Balance) (realmIndex : ℕ) : ℚ :=
  match bal.cycleDefinitions with
  | none => 1
  | some cd =>
      if realmIndex ∈ cd.mortal.realms then
        1 + (if cd.mortal.realmBonus = 0 then 1 / 4 else cd.mortal.realmBonus) *
          (cd.mortal.realms.indexOf realmIndex : ℚ)
      else if realmIndex ∈ cd.spirit.realms then
        1 + (if cd.spirit.realmBonus = 0 then 1 / 2 else cd.spirit.realmBonus) *
          (cd.spirit.realms.indexOf realmIndex : ℚ)
      else 1

/-- `minTierPctByRealm(realmIndex)` (main.js lines 86-89). -/
def minTierPctByRealm (F : TransFns) (realmIndex : ℕ) : ℚ :=
  min (1 / 100) (3 / 20000 + (1 / 1000) * (1 - F.exp (-(7 / 20) * max 0 (realmIndex : ℚ))))

/-- `maxTierPctByRealm(realmIndex)` (main.js lines 104-107). -/
def maxTierPctByRealm (F : TransFns) (realmIndex : ℕ) : ℚ :=
  min (3 / 50) (1 / 50 + (1 / 20) * (1 - F.exp (-(1 / 4) * max 0 (realmIndex : ℚ))))

/-- `skillRealmScale(realmIndex)`: the EFFECTIVE (second) declaration at
main.js lines 2112-2117, which shadows the earlier one at 1637. -/
def skillRealmScale (F : TransFns) (realmIndex : ℕ) : ℚ :=
  min (1 + 2) (1 + 2 * (1 - F.exp (-(11 / 50) * (realmIndex : ℚ))))

/-- `effectiveSkillBase(id)`: the EFFECTIVE (second) declaration at
main.js lines 2161-2165, which shadows the earlier one at 1674. -/
def effectiveSkillBase (F : TransFns) (bal : Balance) (s : GState) (id : String) : ℚ :=
  let base := jsOr ((getSkill bal id).bind SkillDef.base) 0
  base * skillRealmScale F s.realmIndex

/-! ### Resource engine (main.js lines 1699-1814) -/

/-- `totalQPC()` (main.js lines 1699-1739).  The final
`Number.isFinite(out) ? out : 1e300` check is an identity over `ℚ`. -/
def totalQPC (F : TransFns) (bal : Balance) (s : GState) : ℚ :=
  let add0 := s.qpcBase
  let ranksM := currentRealmRanks s "meridian_flow"
  let add1 :=
    if 0 < ranksM then
      let effBase := effectiveSkillBase F bal s "meridian_flow"
      let baseline := s.qpcBase * jsOr bal.qpcFlatPerRank (1 / 4)
      add0 + (ranksM : ℚ) * baseline * effBase
    else add0
  let ranksD := currentRealmRanks s "dantian_temps"
  let mult1 :=
    if 0 < ranksD then
      let sk := getSkill bal "dantian_temps"
      let basePctPerRank := jsOr (sk.bind SkillDef.base) (1 / 125)
      let capPct := jsOr (sk.bind SkillDef.capPctPerRealm) (3 / 25)
      let minPct := minTierPctByRealm F s.realmIndex
      let maxPct := maxTierPctByRealm F s.realmIndex
      let pctPerRank := max minPct (min maxPct basePctPerRank)
      let effBase := effectiveSkillBase F bal s "dantian_temps"
      let scaledCap := min (capPct * F.sqrt effBase) 2
      let totalPct := min ((ranksD : ℚ) * pctPerRank) scaledCap
      1 + totalPct
    else 1
  let mult2 :=
    if isTechniquePurchased s "void_convergence" then
      let sk := getSkill bal "void_convergence"
      mult1 * (1 + jsOr (sk.bind SkillDef.value) (3 / 25))
    else mult1
  add1 * mult2 * s.qpcMult * karmaQiMult F s.reinc.karma * cyclePowerMult bal s.realmIndex

/-- `totalQPS()` (main.js lines 1747-1789); zero in the tutorial realm. -/
def totalQPS (F : TransFns) (bal : Balance) (s : GState) : ℚ :=
  if s.realmIndex = 0 then 0
  else
    let add0 := s.qpsBase
    let ranksB := currentRealmRanks s "breath_control"
    let add1 :=
      if 0 < ranksB then
        let effBase := effectiveSkillBase F bal s "breath_control"
        let baseline := s.qpsBase * jsOr bal.qpsFlatPerRank (3 / 20)
        add0 + (ranksB : ℚ) * baseline * effBase
      else add0
    let ranksL := currentRealmRanks s "lotus_meditation"
    let mult1 :=
      if 0 < ranksL then
        let sk := getSkill bal "lotus_meditation"
        let basePctPerRank := jsOr (sk.bind SkillDef.base) (1 / 125)
        let capPct := jsOr (sk.bind SkillDef.capPctPerRealm) (3 / 25)
        let minPct := minTierPctByRealm F s.realmIndex
        let maxPct := maxTierPctByRealm F s.realmIndex
        let pctPerRank := max minPct (min maxPct basePctPerRank)
        let effBase := effectiveSkillBase F bal s "lotus_meditation"
        let scaledCap := min (capPct * F.sqrt effBase) 2
        let totalPct := min ((ranksL : ℚ) * pctPerRank) scaledCap
        1 + totalPct
      else 1
    let mult2 :=
      if isTechniquePurchased s "celestial_resonance" then
        let sk := getSkill bal "celestial_resonance"
        mult1 * (1 + jsOr (sk.bind SkillDef.value) (3 / 25))
      else mult1
    add1 * mult2 * s.qpsMult * karmaQiMult F s.reinc.karma * cyclePowerMult bal s.realmIndex

/-- `totalOfflineMult()` (main.js lines 1795-1814). -/
def totalOfflineMult (F : TransFns) (bal : Balance) (s : GState) : ℚ :=
  let ranksClosed := currentRealmRanks s "closed_door"
  if ranksClosed = 0 then 1
  else
    let sk := getSkill bal "closed_door"
    let basePctPerRank := jsOr (sk.bind SkillDef.base) (1 / 200)
    let capPct := jsOr (sk.bind SkillDef.capPctPerRealm) (2 / 25)
    let minPct := minTierPctByRealm F s.realmIndex
    let maxPct := maxTierPctByRealm F s.realmIndex
    let pctPerRank := max minPct (min maxPct basePctPerRank)
    let effBase := effectiveSkillBase F bal s "closed_door"
    let scaledCap := min (capPct * F.sqrt effBase) 1
    let totalPct := min ((ranksClosed : ℚ) * pctPerRank) scaledCap
    1 + totalPct

/-- `safeAddQi(x)` (main.js lines 1251-1254): ignores non-positive gains
and clamps `qi` into `[0, 1e300]`.  (`Number.isFinite(x)` is an identity
over `ℚ`.) -/
def safeAddQi (s : GState) (x : ℚ) : GState :=
  if x ≤ 0 then s
  else { s with qi := max 0 (min (s.qi + x) (10 ^ 300)) }

/-! ### Lifespan controller (main.js lines 2438-2564, 3935-3959) -/

/-- `getMaxLifespan(realmIndex)` (main.js lines 2438-2450). -/
def getMaxLifespan (F : TransFns) (bal : Balance) (s : GState) (index : ℕ) : Option ℚ :=
  match bal.realmMaxLifespan[index]? with
  | none => none
  | some none => none
  | some (some m) =>
      let baseLifespan :=
        if m = 0 then jsOr (bal.realmMaxLifespan.head?.getD none) 100 else m
      some ((⌊baseLifespan * karmaLifeMult F s.reinc.karma⌋ : ℤ) : ℚ)

/-- `getMaxLifespan()` with the default argument `S.realmIndex`. -/
def getMaxLifespanS (F : TransFns) (bal : Balance) (s : GState) : Option ℚ :=
  getMaxLifespan F bal s s.realmIndex

/-- `isImmortal()` (main.js lines 2452-2454). -/
def isImmortal (F : TransFns) (bal : Balance) (s : GState) : Bool :=
  (getMaxLifespanS F bal s).isNone

/-- The synchronous part of the async `handleLifespanEnd()` (main.js lines
2569-2610): the debounce guard, death/reincarnation flags, and the forced
pause — everything executed before the first `await`.  The ghost counter
`handlerRuns` is incremented on every invocation; the post-`await` reset
is a separate entry point, `performDeathReincarnation`. -/
def handleLifespanEndSync (w : World) (nowMs : ℤ) : World :=
  let w1 := { w with handlerRuns := w.handlerRuns + 1 }
  if w.handlingDeath || w.s.lifecycle.isReincarnating || w.s.isDead then w1
  else
    { w1 with
      handlingDeath := true,
      s := { w.s with
        isDead := true,
        lifecycle := { w.s.lifecycle with isReincarnating := true, lastDeathAt := nowMs },
        timeSpeed := { current := 0, paused := true } } }

/-- `tickLifespan(dt)` (main.js lines 2504-2564); `dt` is already
speed-scaled by the caller.  The `ageYears` migration and the
`isFinite(newAge)` guard are identities in the rational model. -/
def tickLifespan (F : TransFns) (bal : Balance) (w : World) (dt : ℚ) (nowMs : ℤ) : World :=
  if w.s.timeSpeed.paused || w.s.isDead then w
  else if isImmortal F bal w.s then w
  else if w.s.lifecycle.isReincarnating then w
  else
    let safeDt := max 0 dt
    if safeDt = 0 then w
    else
      let yps := if bal.yearsPerSecond = 0 then 1 else bal.yearsPerSecond
      let agingRate := safeDt * yps
      let newAge := w.s.age + agingRate
      let maxL := getMaxLifespanS F bal w.s
      let s1 :=
        match maxL with
        | some m => { w.s with age := max 0 (min newAge m) }
        | none => { w.s with age := max 0 newAge }
      let s2 :=
        match s1.lifespan.max with
        | some lm => { s1 with lifespan := { s1.lifespan with current := some (max 0 (lm - s1.age)) } }
        | none => s1
      match maxL with
      | some m =>
          if m ≤ s2.age ∧ ¬s2.flags.lifespanHandled then
            handleLifespanEndSync
              { w with s := { s2 with flags := { s2.flags with lifespanHandled := true } } } nowMs
          else { w with s := s2 }
      | none => { w with s := s2 }

/-- `checkLifespanGate()` (main.js lines 3935-3959). -/
def checkLifespanGate (F : TransFns) (bal : Balance) (w : World) (nowMs : ℤ) : World :=
  if isImmortal F bal w.s then w
  else if w.s.flags.lifespanHandled || w.s.lifecycle.isReincarnating then w
  else
    match getMaxLifespanS F bal w.s with
    | none => w
    | some m =>
        if m ≤ w.s.age then
          handleLifespanEndSync
            { w with s := { w.s with flags := { w.s.flags with lifespanHandled := true } } } nowMs
        else w

/-- `tick(rawDt, speed)` (main.js lines 2990-3018).  Qi gains use the raw
delta; aging uses the speed-scaled delta.
(`S.reinc.lifetimeQi = safeNum(...)` is an identity over `ℚ`.) -/
def tick (F : TransFns) (bal : Balance) (w : World) (rawDt speed : ℚ) (nowMs : ℤ) : World :=
  if speed = 0 then w
  else if w.s.lifecycle.isReincarnating then w
  else if w.handlingDeath then w
  else
    let qps := totalQPS F bal w.s
    let gain := qps * rawDt
    let s1 := safeAddQi w.s gain
    let s2 := { s1 with reinc := { s1.reinc with lifetimeQi := s1.reinc.lifetimeQi + gain } }
    let w2 := tickLifespan F bal { w with s := s2 } (rawDt * speed) nowMs
    checkLifespanGate F bal w2 nowMs

/-! ### Skill purchase (main.js lines 2006-2063) -/

/-- `buySkill(skillId, requestedQty)` (main.js lines 2006-2063).  Returns
the success boolean together with the updated state.  The post-purchase
`S.qi = safeNum(S.qi, 0)` is an identity over `ℚ`. -/
def buySkill (F : TransFns) (bal : Balance) (s : GState) (id : String)
    (requestedQty : ℚ) : Bool × GState :=
  match getSkill bal id with
  | none => (false, s)
  | some sk =>
      if sk.oneTime then
        if isTechniquePurchased s id then (false, s)
        else if s.qi < sk.cost then (false, s)
        else (true, purchaseTechnique { s with qi := s.qi - sk.cost } id)
      else
        let qty : ℤ := max 1 ⌊requestedQty⌋
        let budget := s.qi
        let affordable := maxAffordableQty F sk (currentRealmRanks s id) qty budget
        if affordable ≤ 0 then (false, s)
        else
          match totalSkillCost F sk (currentRealmRanks s id) affordable with
          | .fin cost =>
              if budget < cost then (false, s)
              else (true, addRealmRank { s with qi := s.qi - cost } id affordable.toNat)
          | _ => (false, s)

/-! ### Reincarnation state machine (main.js lines 2246-2398, 2612-2676) -/

/-- `computeKarmaGain()` (main.js lines 2247-2258).
`Math.floor(Math.sqrt(x))` equals `Nat.sqrt ⌊x⌋` for `x ≥ 0`, the
reachable domain (`lifetimeQi ≥ 0`, `lifetimeQiDivisor > 0`). -/
def computeKarmaGain (bal : Balance) (s : GState) : ℚ :=
  let base : ℚ := (Nat.sqrt ⌊s.reinc.lifetimeQi / bal.lifetimeQiDivisor⌋.toNat : ℚ)
  let realmBonus := (s.realmIndex : ℚ) * bal.realmKarmaFactor
  let cycleMultiplier : ℚ := if s.currentCycle = CycleName.spirit then 2 else 1
  max bal.minKarma ((base + realmBonus) * cycleMultiplier)

/-- `computeVoluntaryKarma()` (main.js lines 2261-2263). -/
def computeVoluntaryKarma (bal : Balance) (s : GState) : ℚ :=
  max bal.minKarma (computeKarmaGain bal s)

/-- `computeDeathKarma()` (main.js lines 2266-2269). -/
def computeDeathKarma (bal : Balance) (s : GState) : ℚ :=
  let deathPenalty := if bal.deathPenalty = 0 then 1 / 2 else bal.deathPenalty
  max bal.minKarma ((⌊computeKarmaGain bal s * deathPenalty⌋ : ℤ) : ℚ)

/-- `defaultState()` (main.js lines 1259-1297).  The legacy `ageYears`
field is collapsed into `age`. -/
def defaultState (bal : Balance) (nowMs : ℤ) : GState :=
  let l := jsOr (bal.realmMaxLifespan.head?.getD none) 100
  { qi := 0
    qpcBase := bal.qpcBaseStart
    qpsBase := bal.qpsBaseStart
    qpcMult := 1
    qpsMult := 1
    offlineMult := 1
    realmIndex := 0
    stage := 1
    lastTick := nowMs
    skills := fun _ => none
    reinc := { times := 0, karma := 0, lifetimeQi := 0 }
    lifespan := { current := some l, max := some l }
    age := 0
    isDead := false
    timeSpeed := { current := 1, paused := false }
    currentCycle := .mortal
    flags := { unlockedBeyondSpirit := false, hasUnlockedSpiritCycle := false,
               hasCompletedMandatoryST10 := false, canManualReincarnate := false,
               lifespanHandled := false }
    lifecycle := { isReincarnating := false, lastDeathAt := 0, lastReincarnateAt := 0 }
    deaths := 0
    meta := { unlockedSpeeds := [0, 1 / 4, 1 / 2, 1] }
    session := none }

/-- `refreshLifespanForRealm()` (main.js lines 2460-2476). -/
def refreshLifespanForRealm (F : TransFns) (bal : Balance) (s : GState) : GState :=
  match getMaxLifespanS F bal s with
  | none => { s with lifespan := { current := none, max := none }, age := 0 }
  | some m =>
      match s.lifespan.current with
      | none => { s with lifespan := { current := some m, max := some m } }
      | some c => { s with lifespan := { current := some (min c m), max := some m } }

/-- `updateCurrentCycle()` (main.js lines 1345-1367); with the default
balance (no `cycleDefinitions`) both realm lists are empty and the cycle
is unchanged. -/
def updateCurrentCycle (bal : Balance) (s : GState) : GState :=
  let mortalRealms := (bal.cycleDefinitions.map (fun cd => cd.mortal.realms)).getD []
  let spiritRealms := (bal.cycleDefinitions.map (fun cd => cd.spirit.realms)).getD []
  if s.realmIndex ∈ mortalRealms then { s with currentCycle := .mortal }
  else if s.realmIndex ∈ spiritRealms then { s with currentCycle := .spirit }
  else s

inductive ReincMode where
  | voluntary
  | death
  | mandatory
deriving DecidableEq, Repr

/-- `doReincarnate(options)` (main.js lines 2272-2398), без the UI modals
and achievement side channel.  The Spirit Transformation realm index is 5
(`idx('spirit_transformation')`). -/
def doReincarnate (F : TransFns) (bal : Balance) (mode : ReincMode) (s : GState)
    (nowMs : ℤ) : GState :=
  let s0 := { s with lifecycle :=
    { s.lifecycle with isReincarnating := true, lastReincarnateAt := nowMs } }
  let gain := if mode = ReincMode.death then computeDeathKarma bal s0
    else computeVoluntaryKarma bal s0
  let wasAtST10 := s0.realmIndex = 5 ∧ s0.stage = 10
  let oldReinc := s0.reinc
  let oldFlags := s0.flags
  let oldMeta := s0.meta
  let s1 := defaultState bal nowMs
  let s2 := { s1 with
    reinc := { times := oldReinc.times + 1, karma := oldReinc.karma + gain, lifetimeQi := 0 },
    flags := oldFlags,
    meta := oldMeta }
  let s3 :=
    if mode = ReincMode.mandatory ∧ wasAtST10 then
      { s2 with flags := { s2.flags with
          hasCompletedMandatoryST10 := true, hasUnlockedSpiritCycle := true,
          canManualReincarnate := true, unlockedBeyondSpirit := true } }
    else s2
  let s4 := if mode = ReincMode.death then { s3 with deaths := s3.deaths + 1 } else s3
  let s5 := { s4 with
    age := 0, isDead := false,
    flags := { s4.flags with lifespanHandled := false },
    lastTick := nowMs,
    realmIndex := 0, stage := 1, currentCycle := .mortal }
  let s6 := updateCurrentCycle bal (refreshLifespanForRealm F bal s5)
  { s6 with
    lifecycle := { s6.lifecycle with isReincarnating := false },
    timeSpeed := { s6.timeSpeed with paused := false } }

/-- `performDeathReincarnation(karmaGain)` (main.js lines 2612-2676):
the post-`await` reset of the death flow.  `karmaGain` was computed by
`handleLifespanEnd` as `computeDeathKarma()` before the modal.
(`safeNum(newMaxLifespan, 100)` is an identity over `ℚ`.) -/
def performDeathReincarnation (F : TransFns) (bal : Balance) (karmaGain : ℚ)
    (s : GState) (nowMs : ℤ) : GState :=
  let deaths1 := s.deaths + 1
  let newKarma := s.reinc.karma + karmaGain
  let newTimes := s.reinc.times
  let keepFlags := s.flags
  let keepMeta := s.meta
  let s1 := defaultState bal nowMs
  let s2 := { s1 with
    flags := { keepFlags with lifespanHandled := false },
    deaths := deaths1,
    reinc := { times := newTimes, karma := newKarma, lifetimeQi := 0 },
    meta := keepMeta,
    age := 0,
    lastTick := nowMs }
  let s3 :=
    match getMaxLifespan F bal s2 0 with
    | none => { s2 with lifespan := { current := none, max := none } }
    | some m => { s2 with lifespan := { current := some m, max := some m } }
  let s4 := { s3 with isDead := false, timeSpeed := { current := 1, paused := false } }
  { s4 with lifecycle := { s4.lifecycle with isReincarnating := false } }

/-! ### Session snapshot and offline catch-up (main.js lines 3903-3919,
3969-4107) -/

/-- `saveSessionSnapshot()` (main.js lines 3903-3919), state part only. -/
def saveSessionSnapshot (s : GState) (nowMs : ℤ) : GState :=
  let snap : SessionS :=
    { lastTs := nowMs, lastSpeed := s.timeSpeed.current,
      lastRealmIndex := s.realmIndex, lastQi := s.qi }
  { s with session := some snap }

/-- `applyOfflineProgressOnResume()` (main.js lines 3969-4107), without
the modal/achievement side channel.  `!S.session?.lastTs` is also true
for a zero timestamp, hence the explicit `lastTs = 0` case.  The age
migration and `isFinite` guards are identities in the rational model. -/
def applyOfflineProgressOnResume (F : TransFns) (bal : Balance) (w : World)
    (nowMs : ℤ) : World :=
  match w.s.session with
  | none => { w with s := { w.s with session := none } }
  | some sess =>
      if sess.lastTs = 0 then { w with s := { w.s with session := none } }
      else
        let lastSpeed := sess.lastSpeed
        if lastSpeed ≤ 0 then { w with s := { w.s with session := none } }
        else
          let elapsedSec : ℤ := max 0 ⌊((nowMs - sess.lastTs : ℤ) : ℚ) / 1000⌋
          if elapsedSec < 1 then { w with s := { w.s with session := none } }
          else
            let cappedSec : ℚ := min (elapsedSec : ℚ) (bal.capHours * 3600)
            let qps := totalQPS F bal w.s
            let offlineMultiplier := totalOfflineMult F bal w.s
            let qiGains := qps * cappedSec * offlineMultiplier
            let yps := if bal.yearsPerSecond = 0 then 1 else bal.yearsPerSecond
            let yearsPassed := cappedSec * lastSpeed * yps
            let s1 :=
              if 0 < qiGains then
                let sa := safeAddQi w.s qiGains
                let bonus := max 1 (jsOr bal.offlineKarmaBonus 1)
                { sa with reinc := { sa.reinc with
                    lifetimeQi := sa.reinc.lifetimeQi + qiGains * bonus } }
              else w.s
            let stepped : GState × Bool :=
              if ¬(isImmortal F bal s1) = true ∧ s1.lifespan.max ≠ none then
                match s1.lifespan.max with
                | some lm =>
                    let newAge := s1.age + yearsPassed
                    let a := max 0 (min newAge lm)
                    let sb : GState := { s1 with age := a, lifespan := { s1.lifespan with current := some (max 0 (lm - a)) } }
                    (sb, decide (lm ≤ a))
                | none => (s1, false)
              else if ¬(isImmortal F bal s1) = true then
                ({ s1 with age := s1.age + yearsPassed }, false)
              else (s1, false)
            let s3 := { stepped.1 with session := none }
            if stepped.2 then checkLifespanGate F bal { w with s := s3 } nowMs
            else { w with s := s3 }

/-! ### Step sequences for the lifespan latch (claim C3) -/

/-- One call into the lifespan machinery: a `tickLifespan(dt)` call or a
`checkLifespanGate()` call. -/
inductive LifeStep where
  | tickL (dt : ℚ)
  | gate
deriving Repr

def applyStep (F : TransFns) (bal : Balance) (nowMs : ℤ) (w : World) : LifeStep → World
  | .tickL dt => tickLifespan F bal w dt nowMs
  | .gate => checkLifespanGate F bal w nowMs

def applySteps (F : TransFns) (bal : Balance) (nowMs : ℤ) (w : World)
    (steps : List LifeStep) : World :=
  steps.foldl (applyStep F bal nowMs) w

/-! ### Balance-config validator (main.js lines 216-478)

Raw (pre-validation) configuration values: a section object may be absent
(`undefined`/JSON `null`), and inside a section each field may be absent.
For `yearsPerSecond`, `none` models a missing or non-number value (the
source test `typeof yps !== 'number' || !isFinite(yps)`).  Sections 1
(`timeSpeed`) and 2 (`lifespan`) are translated in full; sections 3-8
clamp scalar fields and are not needed by any claim.  Paths on which the
JavaScript code dereferences `undefined` (a thrown `TypeError`) are
modelled with `Except.error`. -/

structure RawTimeSpeed where
  speeds : Option (List ℚ)
  unlockRealmIndex : Option (List ℚ)
deriving DecidableEq, Repr

structure RawLifespan where
  realmMaxLifespan : Option (List (Option ℚ))
  yearsPerSecond : Option ℚ
deriving DecidableEq, Repr

structure RawBal where
  timeSpeed : Option RawTimeSpeed
  lifespan : Option RawLifespan
deriving DecidableEq, Repr

/-- Section 1 of `validateBalanceConfig` (main.js lines 221-268).  After
the length-mismatch truncation, the source spreads
`[...BAL.timeSpeed.speeds]` and `[...BAL.timeSpeed.unlockRealmIndex]`;
when either field is still `undefined` (possible whenever the two lengths
agreed, e.g. both fields absent), the spread throws a `TypeError`. -/
def validateTimeSpeedSection (ts : RawTimeSpeed) : Except String RawTimeSpeed :=
  let speeds := ts.speeds.getD []
  let unlocks := ts.unlockRealmIndex.getD []
  let ts1 :=
    if speeds.length ≠ unlocks.length then
      let minLen := min speeds.length unlocks.length
      { speeds := some (speeds.take minLen),
        unlockRealmIndex := some (unlocks.take minLen) }
    else ts
  match ts1.speeds, ts1.unlockRealmIndex with
  | some cs0, some cu0 =>
      let push := fun (p : List ℚ × List ℚ) (speed : ℚ) =>
        if speed ∈ p.1 then p else (p.1 ++ [speed], p.2 ++ [0])
      let inserted := [0, 1 / 4, 1 / 2, 1].foldl push (cs0, cu0)
      let pairs := (List.range inserted.1.length).map
        (fun i => ((inserted.1[i]?).getD 0, jsOr inserted.2[i]? 0))
      let uniq := pairs.foldl
        (fun acc p => if acc.any (fun q => q.1 = p.1) then acc else acc ++ [p]) []
      let sorted := uniq.mergeSort (fun a b => decide (a.1 ≤ b.1))
      Except.ok { speeds := some (sorted.map Prod.fst),
                  unlockRealmIndex := some (sorted.map Prod.snd) }
  | _, _ => Except.error "TypeError: spread of undefined speeds or unlocks"

/-- Section 2 of `validateBalanceConfig` (main.js lines 270-306).  When
`realmMaxLifespan` is absent, the padding loop (or, for `realmCount = 0`,
the final-entry write) dereferences the undefined field and throws.
An invalid `yearsPerSecond` is reset to 0.5 — which is OUTSIDE the
documented safe range `[0.005, 0.1]` — while a numeric value is clamped
into the range. -/
def validateLifespanSection (ls : RawLifespan) (realmCount : ℕ) : Except String RawLifespan :=
  match ls.realmMaxLifespan with
  | none => Except.error "TypeError: realmMaxLifespan is undefined"
  | some arr =>
      let arr1 :=
        if realmCount < arr.length then arr.take realmCount
        else if arr.length < realmCount then
          let padVal : Option ℚ :=
            match arr.getLast? with
            | none => some 100
            | some v => v
          arr ++ List.replicate (realmCount - arr.length) padVal
        else arr
      let arr2 := if realmCount = 0 then arr1 else arr1.set (realmCount - 1) none
      let yps2 : Option ℚ :=
        match ls.yearsPerSecond with
        | none => some (1 / 2)
        | some y =>
            if y < 1 / 200 then some (1 / 200)
            else if 1 / 10 < y then some (1 / 10)
            else some y
      Except.ok { realmMaxLifespan := some arr2, yearsPerSecond := yps2 }

/-- `validateBalanceConfig(BAL, realms)` (main.js lines 216-478),
sections 1-2; a section whose object is absent is skipped entirely. -/
def validateBalanceConfig (cfg : RawBal) (realmCount : ℕ) : Except String RawBal := do
  let cfg1 ←
    match cfg.timeSpeed with
    | none => pure cfg
    | some ts => do
        let ts2 ← validateTimeSpeedSection ts
        pure { cfg with timeSpeed := some ts2 }
  match cfg1.lifespan with
  | none => pure cfg1
  | some ls => do
      let ls2 ← validateLifespanSection ls realmCount
      pure { cfg1 with lifespan := some ls2 }

/-! ### Concrete inputs for witnesses and counterexamples -/

/-- `balance.json` content `{"timeSpeed": {}}`: a present `timeSpeed`
section with both arrays absent. -/
def rawBadTimeSpeed : RawBal :=
  { timeSpeed := some { speeds := none, unlockRealmIndex := none }, lifespan := none }

/-- A config with a well-formed lifespan array but a missing (or
non-numeric) `yearsPerSecond`. -/
def rawMissingYps : RawBal :=
  { timeSpeed := none,
    lifespan := some { realmMaxLifespan := some (List.replicate 11 (some 100)),
                       yearsPerSecond := none } }

/-- A state one sliver short of death: realm 1 (max lifespan 100 at karma
0), age 99.95. -/
def cexDyingState : GState :=
  { defaultState defaultBal 0 with
      realmIndex := 1, age := 1999 / 20,
      lifespan := { current := some (1 / 20), max := some 100 } }

def cexDyingWorld : World :=
  { s := cexDyingState, handlingDeath := false, handlerRuns := 0 }

/-- A state already past its maximum lifespan (age 150 in realm 1). -/
def cexOverdueWorld : World :=
  { s := { defaultState defaultBal 0 with realmIndex := 1, age := 150 },
    handlingDeath := false, handlerRuns := 0 }

/-- The default catalog extended with a one-time technique, as a
`balance.json` override may define (`getSkillCatalog` handles the
`oneTime` schema, main.js lines 1565-1569). -/
def techBal : Balance :=
  { defaultBal with skills :=
      defaultBal.skills ++ [("void_convergence", ⟨true, 10, 1, none, some (3 / 25), none, none⟩)] }

/-- A state in the middle of a reincarnation (`lifecycle.isReincarnating`
set) that still owns 50 Qi. -/
def cexReincState : GState :=
  { defaultState defaultBal 0 with
      qi := 50,
      lifecycle := { isReincarnating := true, lastDeathAt := 0, lastReincarnateAt := 0 } }

def cexReincWorld : World :=
  { s := cexReincState, handlingDeath := false, handlerRuns := 0 }

/-- The local `elapsedSec` of `applyOfflineProgressOnResume` (main.js line
3995). -/
def offElapsedSec (sess : SessionS) (nowMs : ℤ) : ℤ :=
  max 0 ⌊((nowMs - sess.lastTs : ℤ) : ℚ) / 1000⌋

/-- The local `cappedSec` of `applyOfflineProgressOnResume` (main.js line
4009). -/
def offCappedSec (bal : Balance) (sess : SessionS) (nowMs : ℤ) : ℚ :=
  min ((offElapsedSec sess nowMs : ℤ) : ℚ) (bal.capHours * 3600)

/-- The effective aging rate `yps` shared by `tickLifespan` and the
offline catch-up (a zero config value falls back to 1). -/
def effYps (bal : Balance) : ℚ :=
  if bal.yearsPerSecond = 0 then 1 else bal.yearsPerSecond

/-- A ranked skill that does carry a `ranksPerRealm` cap. -/
def cappedSkill : SkillDef :=
  { oneTime := false, cost := 10, costScale := 2, base := some 1, value := none,
    ranksPerRealm := some 5, capPctPerRealm := none }

def cappedBal : Balance := { defaultBal with skills := [("iron_body", cappedSkill)] }

def cexBuyState : GState := { defaultState defaultBal 0 with qi := 100 }

/-- A suspended session: realm 1, age 99, snapshot taken at speed 4, with
100 real seconds elapsing before resume at `nowMs = 101000`. -/
def cexOfflineWorld : World :=
  { s := { defaultState defaultBal 0 with
      realmIndex := 1, age := 99,
      lifespan := { current := some 1, max := some 100 },
      session := some { lastTs := 1000, lastSpeed := 4, lastRealmIndex := 1, lastQi := 0 } },
    handlingDeath := false, handlerRuns := 0 }

/-! ## Theorems

### C1: stage-cost monotonicity -/

lemma stageRequirement_eq_plain (r s : ℕ) (d : ℚ) (h : ¬(0 < r ∧ s = 1)) :
    stageRequirement r s d = ⌊(baseRequirementFor r s : ℚ) * d⌋ := by
  unfold stageRequirement
  rw [if_neg h]

lemma stageRequirement_eq_clamp (r s : ℕ) (d : ℚ) (h : 0 < r ∧ s = 1) :
    stageRequirement r s d = max ⌊(baseRequirementFor r s : ℚ) * d⌋
      ⌊(⌊(baseRequirementFor (r - 1) 10 : ℚ) * d⌋ : ℚ) * CROSS_REALM_JUMP⌋ := by
  unfold stageRequirement
  rw [if_pos h]

lemma floor_mul_lt_floor_mul (A B : ℤ) (d : ℚ) (hd1 : 5 / 8 < d)
    (hAB : A + 2 ≤ B) : ⌊(A : ℚ) * d⌋ < ⌊(B : ℚ) * d⌋ := by
  have hd0 : (0 : ℚ) < d := lt_trans (by norm_num) hd1
  have h2 : (2 : ℚ) ≤ (B : ℚ) - (A : ℚ) := by exact_mod_cast (by linarith : (2 : ℤ) ≤ B - A)
  have h3 : (2 : ℚ) * d ≤ ((B : ℚ) - (A : ℚ)) * d := mul_le_mul_of_nonneg_right h2 hd0.le
  have h1 : (A : ℚ) * d + 1 ≤ (B : ℚ) * d := by nlinarith
  calc ⌊(A : ℚ) * d⌋ < ⌊(A : ℚ) * d⌋ + 1 := lt_add_one _
    _ = ⌊(A : ℚ) * d + 1⌋ := (Int.floor_add_one _).symm
    _ ≤ ⌊(B : ℚ) * d⌋ := Int.floor_le_floor h1

lemma clamp_lt_floor_mul (P B2 : ℤ) (d : ℚ) (hd1 : 5 / 8 < d) (hd2 : d ≤ 1)
    (hP : 0 ≤ P) (hB : 5 * P + 8 ≤ 4 * B2) :
    ⌊(⌊(P : ℚ) * d⌋ : ℚ) * CROSS_REALM_JUMP⌋ < ⌊(B2 : ℚ) * d⌋ := by
  have hd0 : (0 : ℚ) < d := lt_trans (by norm_num) hd1
  have hP' : (0 : ℚ) ≤ (P : ℚ) := by exact_mod_cast hP
  have hp_le : (⌊(P : ℚ) * d⌋ : ℚ) ≤ (P : ℚ) * d := Int.floor_le _
  have hM_le : (⌊(⌊(P : ℚ) * d⌋ : ℚ) * CROSS_REALM_JUMP⌋ : ℚ) ≤ (P : ℚ) * d * (5 / 4) := by
    refine le_trans (Int.floor_le _) ?_
    unfold CROSS_REALM_JUMP
    nlinarith
  have hB' : (5 * P + 8 : ℚ) ≤ 4 * (B2 : ℚ) := by exact_mod_cast hB
  have h5 : (2 : ℚ) ≤ (B2 : ℚ) - (5 / 4) * (P : ℚ) := by linarith
  have h6 : (2 : ℚ) * d ≤ ((B2 : ℚ) - (5 / 4) * (P : ℚ)) * d :=
    mul_le_mul_of_nonneg_right h5 hd0.le
  have key : (P : ℚ) * d * (5 / 4) + 1 ≤ (B2 : ℚ) * d := by nlinarith
  have hfin : (⌊(⌊(P : ℚ) * d⌋ : ℚ) * CROSS_REALM_JUMP⌋ : ℤ) + 1 ≤ ⌊(B2 : ℚ) * d⌋ := by
    apply Int.le_floor.mpr
    push_cast
    linarith
  linarith

lemma floor_lt_cross_clamp (P A : ℤ) (d : ℚ) (hd1 : 5 / 8 < d) (hd2 : d ≤ 1)
    (hP : 100 ≤ P) :
    ⌊(P : ℚ) * d⌋ < max A ⌊(⌊(P : ℚ) * d⌋ : ℚ) * CROSS_REALM_JUMP⌋ := by
  have hd0 : (0 : ℚ) < d := lt_trans (by norm_num) hd1
  have hP' : (100 : ℚ) ≤ (P : ℚ) := by exact_mod_cast hP
  have hp : (62 : ℤ) ≤ ⌊(P : ℚ) * d⌋ := by
    apply Int.le_floor.mpr
    push_cast
    nlinarith
  have hstep : ⌊(P : ℚ) * d⌋ + 15 ≤ ⌊(⌊(P : ℚ) * d⌋ : ℚ) * CROSS_REALM_JUMP⌋ := by
    apply Int.le_floor.mpr
    unfold CROSS_REALM_JUMP
    push_cast
    have hq : (62 : ℚ) ≤ (⌊(P : ℚ) * d⌋ : ℚ) := by exact_mod_cast hp
    linarith
  have hlt : ⌊(P : ℚ) * d⌋ < ⌊(⌊(P : ℚ) * d⌋ : ℚ) * CROSS_REALM_JUMP⌋ := by linarith
  exact lt_max_of_lt_right hlt

lemma one_le_srStageScale : (1 : ℚ) ≤ srStageScale := by unfold srStageScale; norm_num

lemma one_le_effScale : (1 : ℚ) ≤ EFFECTIVE_REALM_SCALE := by
  unfold EFFECTIVE_REALM_SCALE srRealmBaseScale
  exact le_max_of_le_left (by norm_num)

lemma five_le_effScale : (5 : ℚ) ≤ EFFECTIVE_REALM_SCALE := by
  unfold EFFECTIVE_REALM_SCALE srRealmBaseScale
  exact le_max_of_le_left (by norm_num)

lemma minScale_le_effScale : srStageScale ^ 9 ≤ EFFECTIVE_REALM_SCALE := by
  unfold EFFECTIVE_REALM_SCALE MIN_REALM_SCALE
  exact le_max_right _ _

lemma base_factor_ge (r k : ℕ) :
    (80 : ℚ) ≤ srRealmBase * EFFECTIVE_REALM_SCALE ^ r * srStageScale ^ k := by
  have ha : (1 : ℚ) ≤ EFFECTIVE_REALM_SCALE ^ r := one_le_pow₀ one_le_effScale
  have hb : (1 : ℚ) ≤ srStageScale ^ k := one_le_pow₀ one_le_srStageScale
  unfold srRealmBase
  nlinarith

lemma floor_step_ge (x : ℚ) (hx : (8 : ℚ) ≤ x) : ⌊x⌋ + 2 ≤ ⌊srStageScale * x⌋ := by
  have h1 : x + 3 ≤ srStageScale * x := by unfold srStageScale; nlinarith
  have h2 : ⌊x + (3 : ℤ)⌋ ≤ ⌊srStageScale * x⌋ := Int.floor_le_floor (by push_cast; linarith)
  rw [Int.floor_add_int] at h2
  linarith

lemma base_table_step (r s : ℕ) (hs : 1 ≤ s) :
    baseRequirementFor r s + 2 ≤ baseRequirementFor r (s + 1) := by
  unfold baseRequirementFor
  rcases Nat.eq_zero_or_pos r with hr | hr
  · subst hr
    simp only [if_pos rfl]
    push_cast
    linarith
  · have hr0 : r ≠ 0 := Nat.pos_iff_ne_zero.mp hr
    simp only [if_neg hr0]
    obtain ⟨t, rfl⟩ : ∃ t, s = t + 1 := ⟨s - 1, (Nat.succ_pred_eq_of_pos hs).symm⟩
    have hrw : srRealmBase * EFFECTIVE_REALM_SCALE ^ r * srStageScale ^ (t + 1 + 1 - 1) =
        srStageScale * (srRealmBase * EFFECTIVE_REALM_SCALE ^ r * srStageScale ^ (t + 1 - 1)) := by
      simp only [Nat.add_sub_cancel]
      rw [pow_succ]
      ring
    rw [hrw]
    exact floor_step_ge _ (le_trans (by norm_num) (base_factor_ge r (t + 1 - 1)))

lemma base_stage10_ge (r : ℕ) : 100 ≤ baseRequirementFor r 10 := by
  unfold baseRequirementFor
  rcases Nat.eq_zero_or_pos r with hr | hr
  · subst hr; simp
  · have hr0 : r ≠ 0 := Nat.pos_iff_ne_zero.mp hr
    simp only [if_neg hr0, show (10 : ℕ) - 1 = 9 from rfl]
    apply Int.le_floor.mpr
    push_cast
    have h5 : (5 : ℚ) ≤ EFFECTIVE_REALM_SCALE := five_le_effScale
    have ha : EFFECTIVE_REALM_SCALE ≤ EFFECTIVE_REALM_SCALE ^ r :=
      le_self_pow₀ (le_trans (by norm_num) five_le_effScale) hr0
    have hb : (1 : ℚ) ≤ srStageScale ^ 9 := one_le_pow₀ one_le_srStageScale
    unfold srRealmBase
    nlinarith

lemma base_cross_clamp_step (r : ℕ) (hr : 1 ≤ r) :
    5 * baseRequirementFor (r - 1) 10 + 8 ≤ 4 * baseRequirementFor r 2 := by
  rcases Nat.lt_or_ge r 2 with hr2 | hr2
  · -- r = 1: the previous realm is the linear Mortal Realm, base(0,10) = 100.
    have hone : r = 1 := le_antisymm (Nat.lt_succ_iff.mp hr2) hr
    subst hone
    have h1 : baseRequirementFor 0 10 = 100 := by unfold baseRequirementFor; norm_num
    have h2 : (127 : ℤ) ≤ baseRequirementFor 1 2 := by
      unfold baseRequirementFor
      simp only [if_neg (by norm_num : (1 : ℕ) ≠ 0), show (2 : ℕ) - 1 = 1 from rfl,
        pow_one]
      apply Int.le_floor.mpr
      push_cast
      have ha : (5 : ℚ) ≤ EFFECTIVE_REALM_SCALE := five_le_effScale
      have hb : (1 : ℚ) ≤ srStageScale := one_le_srStageScale
      unfold srRealmBase
      nlinarith
    simp only [Nat.sub_self] at *
    rw [h1]
    linarith
  · -- r ≥ 2: both sides are floors of the same geometric curve, one realm apart.
    obtain ⟨u, rfl⟩ : ∃ u, r = u + 2 := ⟨r - 2, by omega⟩
    have hne1 : (u + 1 : ℕ) ≠ 0 := Nat.succ_ne_zero u
    have hne2 : (u + 2 : ℕ) ≠ 0 := Nat.succ_ne_zero (u + 1)
    unfold baseRequirementFor
    simp only [if_neg hne1, if_neg hne2, show (u + 2 : ℕ) - 1 = u + 1 from rfl,
      show (10 : ℕ) - 1 = 9 from rfl, show (2 : ℕ) - 1 = 1 from rfl]
    set y : ℚ := srRealmBase * EFFECTIVE_REALM_SCALE ^ (u + 1) * srStageScale ^ 9 with hy
    set z : ℚ := srRealmBase * EFFECTIVE_REALM_SCALE ^ (u + 2) * srStageScale ^ 1 with hz
    have hy80 : (80 : ℚ) ≤ y := base_factor_ge (u + 1) 9
    have hEpos : (0 : ℚ) < EFFECTIVE_REALM_SCALE ^ (u + 1) :=
      pow_pos (lt_of_lt_of_le (by norm_num) one_le_effScale) _
    have hfac : (0 : ℚ) ≤ srRealmBase * EFFECTIVE_REALM_SCALE ^ (u + 1) * srStageScale := by
      have hs0 : (0 : ℚ) ≤ srStageScale := by unfold srStageScale; norm_num
      have h80 : (0 : ℚ) ≤ srRealmBase := by unfold srRealmBase; norm_num
      exact mul_nonneg (mul_nonneg h80 hEpos.le) hs0
    have hcy : srStageScale * y ≤ z := by
      rw [hy, hz]
      have h1 := mul_le_mul_of_nonneg_left minScale_le_effScale hfac
      calc srStageScale * (srRealmBase * EFFECTIVE_REALM_SCALE ^ (u + 1) * srStageScale ^ 9)
          = srRealmBase * EFFECTIVE_REALM_SCALE ^ (u + 1) * srStageScale * srStageScale ^ 9 := by
            ring
        _ ≤ srRealmBase * EFFECTIVE_REALM_SCALE ^ (u + 1) * srStageScale * EFFECTIVE_REALM_SCALE :=
            h1
        _ = srRealmBase * EFFECTIVE_REALM_SCALE ^ (u + 2) * srStageScale ^ 1 := by
            rw [pow_succ, pow_one]
            ring
    rw [show srStageScale = 71 / 50 from rfl] at hcy
    have hPle : (⌊y⌋ : ℚ) ≤ y := Int.floor_le _
    have hzgt : z - 1 < (⌊z⌋ : ℚ) := Int.sub_one_lt_floor z
    have hkey : (5 * ⌊y⌋ + 8 : ℚ) < 4 * (⌊z⌋ : ℚ) := by push_cast; linarith
    have hint : (5 * ⌊y⌋ + 8 : ℤ) < 4 * ⌊z⌋ := by exact_mod_cast hkey
    omega

/-- C1.  Stage-cost monotonicity: for every realm index `r ∈ [0,10]` and stage
`s ∈ [1,9]`, `stageRequirement(r,s) < stageRequirement(r,s+1)`, and for every
`r ∈ [0,9]`, `stageRequirement(r,10) < stageRequirement(r+1,1)`.  The karma
discount `d = 1/karmaStageMult(karma)` is applied identically to both sides;
since `karmaStageMult` ranges over `[1, 1.6)` for every karma value `≥ 0`,
`d` ranges over `(5/8, 1]`, which is the hypothesis below. -/
theorem stage_cost_monotonic (d : ℚ) (hd1 : 5 / 8 < d) (hd2 : d ≤ 1) :
    (∀ r s : ℕ, r ≤ 10 → 1 ≤ s → s ≤ 9 →
      stageRequirement r s d < stageRequirement r (s + 1) d) ∧
    (∀ r : ℕ, r ≤ 9 → stageRequirement r 10 d < stageRequirement (r + 1) 1 d) := by
  constructor
  · intro r s hr hs1 hs9
    rw [stageRequirement_eq_plain r (s + 1) d (by omega)]
    rcases Nat.eq_zero_or_pos r with h0 | hpos
    · subst h0
      rw [stageRequirement_eq_plain 0 s d (by omega)]
      exact floor_mul_lt_floor_mul _ _ d hd1 (base_table_step 0 s hs1)
    · rcases Nat.eq_or_lt_of_le hs1 with hs_eq | hs_gt
      · -- s = 1: the left-hand side carries the cross-realm clamp.
        subst hs_eq
        rw [stageRequirement_eq_clamp r 1 d ⟨hpos, rfl⟩]
        apply max_lt
        · exact floor_mul_lt_floor_mul _ _ d hd1 (base_table_step r 1 le_rfl)
        · exact clamp_lt_floor_mul _ _ d hd1 hd2
            (le_trans (by norm_num) (base_stage10_ge (r - 1)))
            (base_cross_clamp_step r hpos)
      · rw [stageRequirement_eq_plain r s d (by omega)]
        exact floor_mul_lt_floor_mul _ _ d hd1 (base_table_step r s hs1)
  · intro r hr
    rw [stageRequirement_eq_plain r 10 d (by omega),
      stageRequirement_eq_clamp (r + 1) 1 d ⟨Nat.succ_pos r, rfl⟩, Nat.add_sub_cancel]
    exact floor_lt_cross_clamp _ _ d hd1 hd2 (base_stage10_ge r)

/-- Witness for C1: instantiation at the concrete discount `d = 1`
(karma 0) and concrete coordinates. -/
theorem stage_cost_monotonic_witness :
    stageRequirement 0 5 1 < stageRequirement 0 6 1 ∧
    stageRequirement 3 10 1 < stageRequirement 4 1 1 := by
  have h := stage_cost_monotonic 1 (by norm_num) le_rfl
  exact ⟨h.1 0 5 (by norm_num) (by norm_num) (by norm_num), h.2 3 (by norm_num)⟩

/-! ### C4 / C10: NaN propagation through the bulk cost system -/

lemma JSN.add_nan (x : JSN) : JSN.add x .nan = .nan := by cases x <;> rfl

lemma JSN.nan_mul (x : JSN) : JSN.mul .nan x = .nan := by cases x <;> rfl

lemma JSN.mul_nan (x : JSN) : JSN.mul x .nan = .nan := by cases x <;> rfl

lemma JSN.sub_nan (x : JSN) : JSN.sub x .nan = .nan := by cases x <;> rfl

lemma JSN.nan_add (x : JSN) : JSN.add .nan x = .nan := by cases x <;> rfl

lemma JSN.nan_sub (x : JSN) : JSN.sub .nan x = .nan := by
  unfold JSN.sub
  exact JSN.nan_add _

lemma JSN.jmin_nan (x : JSN) : JSN.jmin x .nan = .nan := by cases x <;> rfl

lemma JSN.blt_nan (x : JSN) : JSN.blt x .nan = false := by cases x <;> rfl

lemma JSN.ble_nan (x : JSN) : JSN.ble x .nan = false := by cases x <;> rfl

lemma lnTotalCost_nan (F : TransFns) (sk : SkillDef) (ranks : ℕ) :
    lnTotalCost F sk ranks .nan = .nan := by
  unfold lnTotalCost
  split_ifs with h1 h2
  · simp [JSN.ble] at h1
  · simp [JSN.lnJ, JSN.nan_add]
  · simp [JSN.nan_mul, JSN.blt_nan, JSN.expm1J, JSN.lnJ, JSN.nan_sub, JSN.add_nan]

/-- With `ranksPerRealm` absent, the capped quantity is `NaN`. -/
lemma actualQtyJ_none (sk : SkillDef) (h : sk.ranksPerRealm = none)
    (ranks : ℕ) (qty : ℤ) : actualQtyJ sk ranks qty = .nan := by
  unfold actualQtyJ capJN
  rw [h]
  simp [JSN.nan_sub, JSN.jmin_nan]

lemma totalSkillCost_no_cap (F : TransFns) (sk : SkillDef) (ranks : ℕ) (qty : ℤ)
    (h1 : sk.oneTime = false) (h2 : sk.ranksPerRealm = none) (h3 : 1 ≤ qty) :
    totalSkillCost F sk ranks qty = .fin (10 ^ 300) := by
  unfold totalSkillCost
  rw [if_neg (by omega), if_neg (by simp [h1]), actualQtyJ_none sk h2]
  simp [JSN.ble, lnTotalCost_nan]

lemma maxAffordableQty_no_cap (F : TransFns) (sk : SkillDef) (ranks : ℕ)
    (maxQty : ℤ) (budget : ℚ) (h1 : sk.oneTime = false)
    (h2 : sk.ranksPerRealm = none) :
    maxAffordableQty F sk ranks maxQty budget = 0 := by
  unfold maxAffordableQty
  rw [h2]
  simp only [h1, Bool.false_eq_true, if_false]
  split_ifs with ha
  · rfl
  · rfl

lemma default_skills_shape :
    ∀ p ∈ defaultBal.skills, p.2.oneTime = false ∧ p.2.ranksPerRealm = none := by
  decide

lemma getSkill_defaultBal_shape (id : String) (sk : SkillDef)
    (h : getSkill defaultBal id = some sk) :
    sk.oneTime = false ∧ sk.ranksPerRealm = none := by
  unfold getSkill at h
  cases hfind : defaultBal.skills.find? (fun p => p.1 == id) with
  | none => rw [hfind] at h; simp at h
  | some p =>
      rw [hfind] at h
      simp only [Option.map_some', Option.some.injEq] at h
      have hmem := List.mem_of_find?_eq_some hfind
      subst h
      exact default_skills_shape p hmem

/-- C4.  Bulk-purchase overflow safety: for every skill in the (built-in)
catalog, any rank count and any state, `totalSkillCost(id, 10000)` is the
finite non-negative sentinel `1e300` and `maxAffordableQty(id, 10000,
1e100)` is `0`; and in general, whenever the computed log-cost is a finite
value above `LOG_MAX = 690`, `totalSkillCost` returns the `1e300` sentinel
instead of exponentiating. -/
theorem bulk_purchase_overflow_safe :
    (∀ id sk, (id, sk) ∈ defaultBal.skills → ∀ (F : TransFns) (ranks : ℕ),
      totalSkillCost F sk ranks 10000 = .fin (10 ^ 300) ∧
      (totalSkillCost F sk ranks 10000).isFinite = true ∧
      maxAffordableQty F sk ranks 10000 (10 ^ 100) = 0) ∧
    (∀ (F : TransFns) (sk : SkillDef) (ranks : ℕ) (qty : ℤ) (l : ℚ),
      0 < qty → sk.oneTime = false →
      JSN.ble (actualQtyJ sk ranks qty) (.fin 0) = false →
      lnTotalCost F sk ranks (actualQtyJ sk ranks qty) = .fin l → LOG_MAX < l →
      totalSkillCost F sk ranks qty = .fin (10 ^ 300)) := by
  constructor
  · intro id sk hmem F ranks
    have hshape := default_skills_shape (id, sk) hmem
    have h1 := totalSkillCost_no_cap F sk ranks 10000 hshape.1 hshape.2 (by norm_num)
    refine ⟨h1, ?_, maxAffordableQty_no_cap F sk ranks 10000 (10 ^ 100) hshape.1 hshape.2⟩
    rw [h1]
    rfl
  · intro F sk ranks qty l hq h1 hble hln hgt
    unfold totalSkillCost
    rw [if_neg (by omega)]
    simp only [h1, Bool.false_eq_true, if_false]
    rw [hble]
    simp only [Bool.false_eq_true, if_false]
    rw [hln]
    dsimp only
    rw [if_pos hgt]

/-- Witness for C4: the `breath_control` skill at 3 existing ranks. -/
theorem bulk_purchase_overflow_safe_witness :
    totalSkillCost F0 ⟨false, 20, 61 / 50, some (6 / 5), none, none, none⟩ 3 10000 =
      .fin (10 ^ 300) ∧
    maxAffordableQty F0 ⟨false, 20, 61 / 50, some (6 / 5), none, none, none⟩ 3 10000
      (10 ^ 100) = 0 := by
  have h := bulk_purchase_overflow_safe.1 "breath_control"
    ⟨false, 20, 61 / 50, some (6 / 5), none, none, none⟩
    (by simp only [defaultBal]; exact List.Mem.head _) F0 3
  exact ⟨h.1, h.2.2⟩

/-- C10.  All five built-in skills are ranked (`oneTime` absent) and omit
`ranksPerRealm`; for any such skill `maxAffordableQty` is 0 for every
quantity and budget, `totalSkillCost` returns the `1e300` sentinel for
every positive quantity, and `buySkill` on the built-in catalog always
fails with the state unchanged. -/
theorem default_ranked_skills_unbuyable :
    (∀ id sk, (id, sk) ∈ defaultBal.skills →
      sk.oneTime = false ∧ sk.ranksPerRealm = none) ∧
    (∀ (F : TransFns) (sk : SkillDef) (ranks : ℕ) (maxQty : ℤ) (budget : ℚ),
      sk.oneTime = false → sk.ranksPerRealm = none →
      maxAffordableQty F sk ranks maxQty budget = 0) ∧
    (∀ (F : TransFns) (sk : SkillDef) (ranks : ℕ) (qty : ℤ),
      sk.oneTime = false → sk.ranksPerRealm = none → 1 ≤ qty →
      totalSkillCost F sk ranks qty = .fin (10 ^ 300)) ∧
    (∀ (F : TransFns) (s : GState) (id : String) (sk : SkillDef) (qty : ℚ),
      getSkill defaultBal id = some sk →
      buySkill F defaultBal s id qty = (false, s)) := by
  refine ⟨?_, ?_, ?_, ?_⟩
  · intro id sk hmem
    exact default_skills_shape (id, sk) hmem
  · intro F sk ranks maxQty budget h1 h2
    exact maxAffordableQty_no_cap F sk ranks maxQty budget h1 h2
  · intro F sk ranks qty h1 h2 h3
    exact totalSkillCost_no_cap F sk ranks qty h1 h2 h3
  · intro F s id sk qty hg
    obtain ⟨h1, h2⟩ := getSkill_defaultBal_shape id sk hg
    unfold buySkill
    rw [hg]
    simp only [h1, Bool.false_eq_true, if_false]
    rw [maxAffordableQty_no_cap F sk (currentRealmRanks s id) (max 1 ⌊qty⌋) s.qi h1 h2]
    simp

/-- Witness for C10: a concrete `buySkill` call on the built-in catalog
fails and leaves the state unchanged. -/
theorem default_ranked_skills_unbuyable_witness :
    buySkill F0 defaultBal (defaultState defaultBal 0) "breath_control" 7 =
      (false, defaultState defaultBal 0) ∧
    totalSkillCost F0 ⟨false, 140, 27 / 20, some (1 / 4), none, none, none⟩ 0 1 =
      .fin (10 ^ 300) := by
  constructor
  · exact default_ranked_skills_unbuyable.2.2.2 F0 (defaultState defaultBal 0)
      "breath_control" ⟨false, 20, 61 / 50, some (6 / 5), none, none, none⟩ 7 rfl
  · exact default_ranked_skills_unbuyable.2.2.1 F0
      ⟨false, 140, 27 / 20, some (1 / 4), none, none, none⟩ 0 1 rfl rfl (by norm_num)

/-! ### C2: speed independence of Qi -/

lemma handleLifespanEndSync_preserves (w : World) (n : ℤ) :
    (handleLifespanEndSync w n).s.qi = w.s.qi ∧
    (handleLifespanEndSync w n).s.reinc = w.s.reinc ∧
    (handleLifespanEndSync w n).s.age = w.s.age := by
  unfold handleLifespanEndSync
  split_ifs <;> exact ⟨rfl, rfl, rfl⟩

lemma tickLifespan_preserves (F : TransFns) (bal : Balance) (w : World) (dt : ℚ) (n : ℤ) :
    (tickLifespan F bal w dt n).s.qi = w.s.qi ∧
    (tickLifespan F bal w dt n).s.reinc = w.s.reinc := by
  unfold tickLifespan
  dsimp only
  split_ifs <;> try exact ⟨rfl, rfl⟩
  repeat' split
  all_goals
    first
      | exact ⟨rfl, rfl⟩
      | exact ⟨(handleLifespanEndSync_preserves _ _).1,
          (handleLifespanEndSync_preserves _ _).2.1⟩

lemma checkLifespanGate_preserves (F : TransFns) (bal : Balance) (w : World) (n : ℤ) :
    (checkLifespanGate F bal w n).s.qi = w.s.qi ∧
    (checkLifespanGate F bal w n).s.reinc = w.s.reinc ∧
    (checkLifespanGate F bal w n).s.age = w.s.age := by
  unfold checkLifespanGate
  dsimp only
  split_ifs <;> try exact ⟨rfl, rfl, rfl⟩
  repeat' split
  all_goals
    first
      | exact ⟨rfl, rfl, rfl⟩
      | exact ⟨(handleLifespanEndSync_preserves _ _).1,
          (handleLifespanEndSync_preserves _ _).2.1,
          (handleLifespanEndSync_preserves _ _).2.2⟩

lemma safeAddQi_preserves (s : GState) (x : ℚ) :
    (safeAddQi s x).age = s.age ∧
    (safeAddQi s x).timeSpeed = s.timeSpeed ∧
    (safeAddQi s x).isDead = s.isDead ∧
    (safeAddQi s x).realmIndex = s.realmIndex ∧
    (safeAddQi s x).reinc = s.reinc ∧
    (safeAddQi s x).lifecycle = s.lifecycle := by
  unfold safeAddQi
  split_ifs <;> exact ⟨rfl, rfl, rfl, rfl, rfl, rfl⟩

lemma getMaxLifespanS_congr (F : TransFns) (bal : Balance) (s t : GState)
    (h1 : t.realmIndex = s.realmIndex) (h2 : t.reinc.karma = s.reinc.karma) :
    getMaxLifespanS F bal t = getMaxLifespanS F bal s := by
  unfold getMaxLifespanS getMaxLifespan karmaLifeMult
  rw [h1, h2]

lemma tick_qi_eq (F : TransFns) (bal : Balance) (w : World) (rawDt sp : ℚ) (n : ℤ)
    (hsp : sp ≠ 0) :
    (tick F bal w rawDt sp n).s.qi =
      if w.s.lifecycle.isReincarnating || w.handlingDeath then w.s.qi
      else (safeAddQi w.s (totalQPS F bal w.s * rawDt)).qi := by
  unfold tick
  rw [if_neg hsp]
  by_cases h1 : w.s.lifecycle.isReincarnating = true
  · simp [h1]
  · by_cases h2 : w.handlingDeath = true
    · simp [h1, h2]
    · simp only [h1, h2, Bool.false_eq_true, if_false, Bool.or_self]
      rw [(checkLifespanGate_preserves F bal _ n).1, (tickLifespan_preserves F bal _ _ n).1]

lemma tick_lifetimeQi_eq (F : TransFns) (bal : Balance) (w : World) (rawDt sp : ℚ)
    (n : ℤ) (hsp : sp ≠ 0) :
    (tick F bal w rawDt sp n).s.reinc.lifetimeQi =
      if w.s.lifecycle.isReincarnating || w.handlingDeath then w.s.reinc.lifetimeQi
      else w.s.reinc.lifetimeQi + totalQPS F bal w.s * rawDt := by
  unfold tick
  rw [if_neg hsp]
  by_cases h1 : w.s.lifecycle.isReincarnating = true
  · simp [h1]
  · by_cases h2 : w.handlingDeath = true
    · simp [h1, h2]
    · simp only [h1, h2, Bool.false_eq_true, if_false, Bool.or_self]
      rw [congrArg ReincS.lifetimeQi (checkLifespanGate_preserves F bal _ n).2.1,
        congrArg ReincS.lifetimeQi (tickLifespan_preserves F bal _ _ n).2]
      unfold safeAddQi
      split_ifs <;> rfl

lemma tickLifespan_age_formula (F : TransFns) (bal : Balance) (w : World) (dt : ℚ)
    (n : ℤ) (m : ℚ) (hp : w.s.timeSpeed.paused = false) (hd : w.s.isDead = false)
    (hr : w.s.lifecycle.isReincarnating = false)
    (hm : getMaxLifespanS F bal w.s = some m) (hdt : 0 < dt)
    (hyps : bal.yearsPerSecond ≠ 0) :
    (tickLifespan F bal w dt n).s.age =
      max 0 (min (w.s.age + dt * bal.yearsPerSecond) m) := by
  unfold tickLifespan
  rw [if_neg (by simp [hp, hd]), if_neg (by simp [isImmortal, hm]), if_neg (by simp [hr]),
    if_neg (by rw [max_eq_right hdt.le]; exact hdt.ne'), hm]
  rw [max_eq_right hdt.le, if_neg hyps]
  dsimp only
  cases hlm : w.s.lifespan.max with
  | none =>
      dsimp only
      split_ifs with hdeath
      · exact (handleLifespanEndSync_preserves _ _).2.2
      · rfl
  | some lm =>
      dsimp only
      split_ifs with hdeath
      · exact (handleLifespanEndSync_preserves _ _).2.2
      · rfl

lemma tick_age_eq (F : TransFns) (bal : Balance) (w : World) (rawDt sp : ℚ)
    (n : ℤ) (m : ℚ) (hsp : sp ≠ 0)
    (hr : w.s.lifecycle.isReincarnating = false) (hh : w.handlingDeath = false)
    (hp : w.s.timeSpeed.paused = false) (hd : w.s.isDead = false)
    (hm : getMaxLifespanS F bal w.s = some m)
    (hpos : 0 < rawDt * sp) (hyps : bal.yearsPerSecond ≠ 0) :
    (tick F bal w rawDt sp n).s.age =
      max 0 (min (w.s.age + rawDt * sp * bal.yearsPerSecond) m) := by
  unfold tick
  rw [if_neg hsp]
  simp only [hr, hh, Bool.false_eq_true, if_false]
  rw [(checkLifespanGate_preserves F bal _ n).2.2]
  have h1 : ∀ x : ℚ, (safeAddQi w.s x).timeSpeed.paused = false :=
    fun x => (congrArg TimeSpeedS.paused (safeAddQi_preserves w.s x).2.1).trans hp
  have h2 : ∀ x : ℚ, (safeAddQi w.s x).isDead = false :=
    fun x => ((safeAddQi_preserves w.s x).2.2.1).trans hd
  have h3 : ∀ x : ℚ, (safeAddQi w.s x).lifecycle.isReincarnating = false :=
    fun x => (congrArg LifecycleS.isReincarnating
      (safeAddQi_preserves w.s x).2.2.2.2.2).trans hr
  have h4 : ∀ x y : ℚ, getMaxLifespanS F bal
      { safeAddQi w.s x with reinc := { (safeAddQi w.s x).reinc with lifetimeQi := y } }
    = some m := by
    intro x y
    refine (getMaxLifespanS_congr F bal w.s _ ?_ ?_).trans hm
    · have hri : (safeAddQi w.s x).realmIndex = w.s.realmIndex :=
        (safeAddQi_preserves w.s x).2.2.2.1
      exact hri
    · have hk : (safeAddQi w.s x).reinc.karma = w.s.reinc.karma :=
        congrArg ReincS.karma (safeAddQi_preserves w.s x).2.2.2.2.1
      exact hk
  rw [tickLifespan_age_formula F bal _ (rawDt * sp) n m (h1 _) (h2 _) (h3 _) (h4 _ _)
    hpos hyps]
  dsimp only
  rw [(safeAddQi_preserves w.s _).1]

/-- C2 (amended).  (i) `totalQPS`/`totalQPC` never read `timeSpeed` or
`age`; (ii) for any two non-zero speeds, `tick(rawDt, s)` adds exactly the
same Qi and lifetime-Qi; (iii) outside the reincarnation guards the Qi
added is exactly `totalQPS() · rawDt`, provided the `1e300` Qi ceiling of
`safeAddQi` is not hit; (iv) the age after a live tick is
`min(age + rawDt·s·yearsPerSecond, maxLifespan)` — the advertised linear
increase `rawDt·s·yearsPerSecond`, but clamped at the lifespan cap (see
the counterexample `tick_age_not_linear`). -/
theorem qi_speed_independent (F : TransFns) (bal : Balance) :
    (∀ (s : GState) (ts : TimeSpeedS) (a : ℚ),
      totalQPS F bal { s with timeSpeed := ts, age := a } = totalQPS F bal s ∧
      totalQPC F bal { s with timeSpeed := ts, age := a } = totalQPC F bal s) ∧
    (∀ (w : World) (rawDt sp1 sp2 : ℚ) (n1 n2 : ℤ), sp1 ≠ 0 → sp2 ≠ 0 →
      (tick F bal w rawDt sp1 n1).s.qi = (tick F bal w rawDt sp2 n2).s.qi ∧
      (tick F bal w rawDt sp1 n1).s.reinc.lifetimeQi
        = (tick F bal w rawDt sp2 n2).s.reinc.lifetimeQi) ∧
    (∀ (w : World) (rawDt sp : ℚ) (n : ℤ), sp ≠ 0 →
      w.s.lifecycle.isReincarnating = false → w.handlingDeath = false →
      0 ≤ totalQPS F bal w.s * rawDt → 0 ≤ w.s.qi →
      w.s.qi + totalQPS F bal w.s * rawDt ≤ 10 ^ 300 →
      (tick F bal w rawDt sp n).s.qi = w.s.qi + totalQPS F bal w.s * rawDt) ∧
    (∀ (w : World) (rawDt sp : ℚ) (n : ℤ) (m : ℚ), sp ≠ 0 →
      w.s.lifecycle.isReincarnating = false → w.handlingDeath = false →
      w.s.timeSpeed.paused = false → w.s.isDead = false →
      getMaxLifespanS F bal w.s = some m →
      0 < rawDt * sp → bal.yearsPerSecond ≠ 0 →
      (tick F bal w rawDt sp n).s.age =
        max 0 (min (w.s.age + rawDt * sp * bal.yearsPerSecond) m)) := by
  refine ⟨?_, ?_, ?_, ?_⟩
  · intro s ts a
    exact ⟨rfl, rfl⟩
  · intro w rawDt sp1 sp2 n1 n2 h1 h2
    rw [tick_qi_eq F bal w rawDt sp1 n1 h1, tick_qi_eq F bal w rawDt sp2 n2 h2,
      tick_lifetimeQi_eq F bal w rawDt sp1 n1 h1, tick_lifetimeQi_eq F bal w rawDt sp2 n2 h2]
    exact ⟨rfl, rfl⟩
  · intro w rawDt sp n hsp hr hh hg hq hcap
    rw [tick_qi_eq F bal w rawDt sp n hsp]
    simp only [hr, hh, Bool.or_self, Bool.false_eq_true, if_false]
    unfold safeAddQi
    split_ifs with hle
    · have : totalQPS F bal w.s * rawDt = 0 := le_antisymm hle hg
      rw [this, add_zero]
    · rw [min_eq_left hcap, max_eq_right (by linarith)]
  · intro w rawDt sp n m hsp hr hh hp hd hm hpos hyps
    exact tick_age_eq F bal w rawDt sp n m hsp hr hh hp hd hm hpos hyps

/-! Concrete numeric facts about the dying state, used by the C2
counterexample and witness. -/

lemma cex_qps0 : totalQPS F0 defaultBal cexDyingWorld.s = 0 := by
  show totalQPS F0 defaultBal cexDyingState = 0
  unfold totalQPS currentRealmRanks cexDyingState defaultState
  norm_num [defaultBal]

lemma cex_qps_nonneg : 0 ≤ totalQPS F0 defaultBal cexDyingWorld.s * 1 := by
  rw [cex_qps0]
  norm_num

lemma cex_qi_nonneg : 0 ≤ cexDyingWorld.s.qi := le_refl 0

lemma cex_qi_cap : cexDyingWorld.s.qi + totalQPS F0 defaultBal cexDyingWorld.s * 1 ≤
    10 ^ 300 := by
  rw [cex_qps0]
  show (0 : ℚ) + 0 * 1 ≤ 10 ^ 300
  norm_num

lemma cex_maxL : getMaxLifespanS F0 defaultBal cexDyingWorld.s = some 100 := by
  show getMaxLifespanS F0 defaultBal cexDyingState = some 100
  unfold getMaxLifespanS getMaxLifespan karmaLifeMult cexDyingState defaultState F0
  norm_num [defaultBal]

lemma cex_pos12 : (0 : ℚ) < 1 * 2 := by norm_num

lemma cex_yps_ne : defaultBal.yearsPerSecond ≠ 0 := by
  unfold defaultBal
  norm_num

/-- Counterexample for C2 as frozen: at age 99.95 of a 100-year lifespan,
`tick(1, 2)` advances age by 0.05 (clamped at the cap), not by
`rawDt · speed · yearsPerSecond = 0.2`, although no reincarnation was in
progress when `tick` was entered. -/
theorem tick_age_not_linear :
    cexDyingWorld.s.lifecycle.isReincarnating = false ∧
    cexDyingWorld.handlingDeath = false ∧
    (0 : ℚ) < 1 ∧ (0 : ℚ) < 2 ∧
    (tick F0 defaultBal cexDyingWorld 1 2 0).s.age - cexDyingWorld.s.age ≠
      1 * 2 * defaultBal.yearsPerSecond := by
  refine ⟨rfl, rfl, by norm_num, by norm_num, ?_⟩
  rw [tick_age_eq F0 defaultBal cexDyingWorld 1 2 0 100 (by norm_num) rfl rfl rfl rfl
    cex_maxL cex_pos12 cex_yps_ne]
  show max 0 (min ((1999 : ℚ) / 20 + 1 * 2 * defaultBal.yearsPerSecond) 100) - 1999 / 20 ≠
    1 * 2 * defaultBal.yearsPerSecond
  unfold defaultBal
  norm_num

/-- Witness for C2: concrete instantiation of all four parts. -/
theorem qi_speed_independent_witness :
    totalQPS F0 defaultBal { cexDyingState with
        timeSpeed := { current := 8, paused := true }, age := 5 }
      = totalQPS F0 defaultBal cexDyingState ∧
    (tick F0 defaultBal cexDyingWorld 1 1 0).s.qi =
      (tick F0 defaultBal cexDyingWorld 1 4 0).s.qi ∧
    (tick F0 defaultBal cexDyingWorld 1 2 0).s.qi =
      cexDyingWorld.s.qi + totalQPS F0 defaultBal cexDyingWorld.s * 1 ∧
    (tick F0 defaultBal cexDyingWorld 1 2 0).s.age =
      max 0 (min (cexDyingWorld.s.age + 1 * 2 * defaultBal.yearsPerSecond) 100) :=
  ⟨((qi_speed_independent F0 defaultBal).1 cexDyingState
      { current := 8, paused := true } 5).1,
    ((qi_speed_independent F0 defaultBal).2.1 cexDyingWorld 1 1 4 0 0
      one_ne_zero four_ne_zero).1,
    (qi_speed_independent F0 defaultBal).2.2.1 cexDyingWorld 1 2 0
      two_ne_zero rfl rfl cex_qps_nonneg cex_qi_nonneg cex_qi_cap,
    (qi_speed_independent F0 defaultBal).2.2.2 cexDyingWorld 1 2 0 100
      two_ne_zero rfl rfl rfl rfl cex_maxL cex_pos12 cex_yps_ne⟩

/-! ### C3: single death per life -/

lemma applyStep_latched (F : TransFns) (bal : Balance) (nowMs : ℤ) (w : World)
    (st : LifeStep) (h : w.s.flags.lifespanHandled = true) :
    (applyStep F bal nowMs w st).handlerRuns = w.handlerRuns ∧
    (applyStep F bal nowMs w st).s.flags.lifespanHandled = true ∧
    (applyStep F bal nowMs w st).s.reinc.times = w.s.reinc.times := by
  cases st with
  | gate =>
      unfold applyStep checkLifespanGate
      split_ifs with h1 h2
      · exact ⟨rfl, h, rfl⟩
      · exact ⟨rfl, h, rfl⟩
      · exfalso
        rw [h] at h2
        simp at h2
  | tickL dt =>
      unfold applyStep tickLifespan
      dsimp only
      split_ifs <;> try exact ⟨rfl, h, rfl⟩
      all_goals cases hml : getMaxLifespanS F bal w.s
      all_goals cases hlm : w.s.lifespan.max
      all_goals dsimp only
      all_goals try exact ⟨rfl, h, rfl⟩
      all_goals rw [if_neg (by rw [h]; simp)]
      all_goals exact ⟨rfl, h, rfl⟩

lemma applySteps_latched (F : TransFns) (bal : Balance) (nowMs : ℤ)
    (steps : List LifeStep) : ∀ w : World, w.s.flags.lifespanHandled = true →
    (applySteps F bal nowMs w steps).handlerRuns = w.handlerRuns ∧
    (applySteps F bal nowMs w steps).s.reinc.times = w.s.reinc.times := by
  induction steps with
  | nil => exact fun w h => ⟨rfl, rfl⟩
  | cons st rest ih =>
      intro w h
      have hs := applyStep_latched F bal nowMs w st h
      have hrest := ih (applyStep F bal nowMs w st) hs.2.1
      unfold applySteps at hrest ⊢
      simp only [List.foldl_cons]
      exact ⟨hrest.1.trans hs.1, hrest.2.trans hs.2.2⟩

lemma gate_fires (F : TransFns) (bal : Balance) (nowMs : ℤ) (w : World) (m : ℚ)
    (h1 : w.s.flags.lifespanHandled = false) (h2 : w.s.lifecycle.isReincarnating = false)
    (h3 : w.handlingDeath = false) (h4 : w.s.isDead = false)
    (hm : getMaxLifespanS F bal w.s = some m) (hage : m ≤ w.s.age) :
    (checkLifespanGate F bal w nowMs).handlerRuns = w.handlerRuns + 1 ∧
    (checkLifespanGate F bal w nowMs).s.flags.lifespanHandled = true ∧
    (checkLifespanGate F bal w nowMs).s.reinc.times = w.s.reinc.times := by
  unfold checkLifespanGate
  rw [if_neg (by simp [isImmortal, hm]), if_neg (by simp [h1, h2]), hm]
  dsimp only
  rw [if_pos hage]
  unfold handleLifespanEndSync
  rw [if_neg (by simp [h3, h2, h4])]
  exact ⟨rfl, rfl, rfl⟩

/-- C3.  Single death per life: from a live overdue state
(`age ≥ maxLifespan`, latch clear), a `checkLifespanGate` call followed by
ANY sequence of further `tickLifespan`/`checkLifespanGate` calls invokes
the death handler `handleLifespanEnd` exactly once — the latch
`flags.lifespanHandled` is set before the handler runs and no later call
can fire it again — and `reinc.times` never changes across the whole
sequence (the death path does not increment it at all). -/
theorem single_death_per_life (F : TransFns) (bal : Balance) (nowMs : ℤ)
    (w : World) (m : ℚ) (steps : List LifeStep)
    (h1 : w.s.flags.lifespanHandled = false)
    (h2 : w.s.lifecycle.isReincarnating = false)
    (h3 : w.handlingDeath = false)
    (h4 : w.s.isDead = false)
    (hm : getMaxLifespanS F bal w.s = some m)
    (hage : m ≤ w.s.age) :
    (applySteps F bal nowMs w (LifeStep.gate :: steps)).handlerRuns
      = w.handlerRuns + 1 ∧
    (applySteps F bal nowMs w (LifeStep.gate :: steps)).s.reinc.times
      = w.s.reinc.times := by
  have hg := gate_fires F bal nowMs w m h1 h2 h3 h4 hm hage
  have hrest := applySteps_latched F bal nowMs steps
    (applyStep F bal nowMs w LifeStep.gate) hg.2.1
  unfold applySteps at hrest ⊢
  simp only [List.foldl_cons]
  exact ⟨hrest.1.trans hg.1, hrest.2.trans hg.2.2⟩

lemma cex_overdue_maxL : getMaxLifespanS F0 defaultBal cexOverdueWorld.s = some 100 := by
  show getMaxLifespanS F0 defaultBal
    { defaultState defaultBal 0 with realmIndex := 1, age := 150 } = some 100
  unfold getMaxLifespanS getMaxLifespan karmaLifeMult defaultState F0
  norm_num [defaultBal]

lemma cex_overdue_age : (100 : ℚ) ≤ cexOverdueWorld.s.age := by
  show (100 : ℚ) ≤ 150
  norm_num

/-- Witness for C3: one gate call plus 2 further calls fires the handler
exactly once and never touches `reinc.times`. -/
theorem single_death_per_life_witness :
    (applySteps F0 defaultBal 0 cexOverdueWorld
        (LifeStep.gate :: [LifeStep.gate, LifeStep.tickL 1])).handlerRuns
      = cexOverdueWorld.handlerRuns + 1 ∧
    (applySteps F0 defaultBal 0 cexOverdueWorld
        (LifeStep.gate :: [LifeStep.gate, LifeStep.tickL 1])).s.reinc.times
      = cexOverdueWorld.s.reinc.times :=
  single_death_per_life F0 defaultBal 0 cexOverdueWorld 100
    [LifeStep.gate, LifeStep.tickL 1] rfl rfl rfl rfl cex_overdue_maxL cex_overdue_age

/-! ### C5: purchase atomicity -/

/-- C5.  Purchase atomicity of `buySkill`: (i) a `false` return leaves the
state unchanged; (ii) a ranked-skill success deducts exactly the computed
total cost of the full affordable quantity and adds exactly that many
ranks; (iii) a one-time success deducts exactly the listed cost and marks
the technique; (iv) a zero affordable quantity (insufficient Qi or rank
cap reached), (v) a non-finite computed cost, and (vi) a cost above the
current Qi each return `false` with no state change; (vii) `qi` never
becomes negative (non-finiteness is impossible over `ℚ`; the source's
`safeNum` re-check is an identity). -/
theorem buySkill_atomic (F : TransFns) (bal : Balance) (s : GState)
    (id : String) (q : ℚ) :
    ((buySkill F bal s id q).1 = false → (buySkill F bal s id q).2 = s) ∧
    (∀ sk, getSkill bal id = some sk → sk.oneTime = false →
      ∀ c, totalSkillCost F sk (currentRealmRanks s id)
          (maxAffordableQty F sk (currentRealmRanks s id) (max 1 ⌊q⌋) s.qi) = .fin c →
        (buySkill F bal s id q).1 = true →
        (buySkill F bal s id q).2 =
          addRealmRank { s with qi := s.qi - c } id
            (maxAffordableQty F sk (currentRealmRanks s id) (max 1 ⌊q⌋) s.qi).toNat) ∧
    (∀ sk, getSkill bal id = some sk → sk.oneTime = true →
      (buySkill F bal s id q).1 = true →
      ¬ s.qi < sk.cost ∧
      (buySkill F bal s id q).2 = purchaseTechnique { s with qi := s.qi - sk.cost } id) ∧
    (∀ sk, getSkill bal id = some sk → sk.oneTime = false →
      maxAffordableQty F sk (currentRealmRanks s id) (max 1 ⌊q⌋) s.qi ≤ 0 →
      buySkill F bal s id q = (false, s)) ∧
    (∀ sk, getSkill bal id = some sk → sk.oneTime = false →
      (∀ c : ℚ, totalSkillCost F sk (currentRealmRanks s id)
          (maxAffordableQty F sk (currentRealmRanks s id) (max 1 ⌊q⌋) s.qi) ≠ .fin c) →
      buySkill F bal s id q = (false, s)) ∧
    (∀ sk, getSkill bal id = some sk → sk.oneTime = false →
      ∀ c, totalSkillCost F sk (currentRealmRanks s id)
          (maxAffordableQty F sk (currentRealmRanks s id) (max 1 ⌊q⌋) s.qi) = .fin c →
        s.qi < c → buySkill F bal s id q = (false, s)) ∧
    (0 ≤ s.qi → 0 ≤ (buySkill F bal s id q).2.qi) := by
  cases hsk : getSkill bal id with
  | none =>
      have he : buySkill F bal s id q = (false, s) := by
        unfold buySkill
        rw [hsk]
      refine ⟨fun _ => by rw [he], ?_, ?_, ?_, ?_, ?_, ?_⟩
      · exact fun sk h => Option.noConfusion h
      · exact fun sk h => Option.noConfusion h
      · exact fun sk h => Option.noConfusion h
      · exact fun sk h => Option.noConfusion h
      · exact fun sk h => Option.noConfusion h
      · intro h0; rw [he]; exact h0
  | some sk' =>
      by_cases ho : sk'.oneTime = true
      · have hstep : buySkill F bal s id q =
            if isTechniquePurchased s id then (false, s)
            else if s.qi < sk'.cost then (false, s)
            else (true, purchaseTechnique { s with qi := s.qi - sk'.cost } id) := by
          unfold buySkill
          rw [hsk]
          dsimp only
          rw [if_pos ho]
        refine ⟨?_, ?_, ?_, ?_, ?_, ?_, ?_⟩
        · rw [hstep]
          split_ifs with h1 h2
          · exact fun _ => rfl
          · exact fun _ => rfl
          · intro hf; exact absurd hf (by simp)
        · intro sk h hfo
          rw [Option.some.injEq] at h; subst h
          exact absurd (hfo.symm.trans ho) Bool.false_ne_true
        · intro sk h hto hsucc
          rw [Option.some.injEq] at h; subst h
          rw [hstep] at hsucc ⊢
          split_ifs at hsucc ⊢ with h1 h2
          exact ⟨h2, rfl⟩
        · intro sk h hfo
          rw [Option.some.injEq] at h; subst h
          exact absurd (hfo.symm.trans ho) Bool.false_ne_true
        · intro sk h hfo
          rw [Option.some.injEq] at h; subst h
          exact absurd (hfo.symm.trans ho) Bool.false_ne_true
        · intro sk h hfo
          rw [Option.some.injEq] at h; subst h
          exact absurd (hfo.symm.trans ho) Bool.false_ne_true
        · intro h0
          rw [hstep]
          split_ifs with h1 h2
          · exact h0
          · exact h0
          · show (0 : ℚ) ≤ s.qi - sk'.cost
            have := not_lt.mp h2
            linarith
      · have ho' : sk'.oneTime = false := by
          cases hb : sk'.oneTime
          · rfl
          · exact absurd hb ho
        have hfail0 : maxAffordableQty F sk' (currentRealmRanks s id) (max 1 ⌊q⌋) s.qi ≤ 0 →
            buySkill F bal s id q = (false, s) := by
          intro hz
          unfold buySkill
          rw [hsk]
          dsimp only
          rw [ho']
          simp only [Bool.false_eq_true, if_false]
          rw [if_pos hz]
        have hfin : ∀ c : ℚ,
            ¬ maxAffordableQty F sk' (currentRealmRanks s id) (max 1 ⌊q⌋) s.qi ≤ 0 →
            totalSkillCost F sk' (currentRealmRanks s id)
              (maxAffordableQty F sk' (currentRealmRanks s id) (max 1 ⌊q⌋) s.qi) = .fin c →
            buySkill F bal s id q =
              (if s.qi < c then (false, s)
               else (true, addRealmRank { s with qi := s.qi - c } id
                 (maxAffordableQty F sk' (currentRealmRanks s id) (max 1 ⌊q⌋) s.qi).toNat)) := by
          intro c hz hT
          unfold buySkill
          rw [hsk]
          dsimp only
          rw [ho']
          simp only [Bool.false_eq_true, if_false]
          rw [if_neg hz, hT]
        have hnfin : ¬ maxAffordableQty F sk' (currentRealmRanks s id) (max 1 ⌊q⌋) s.qi ≤ 0 →
            (∀ c : ℚ, totalSkillCost F sk' (currentRealmRanks s id)
              (maxAffordableQty F sk' (currentRealmRanks s id) (max 1 ⌊q⌋) s.qi) ≠ .fin c) →
            buySkill F bal s id q = (false, s) := by
          intro hz hnf
          unfold buySkill
          rw [hsk]
          dsimp only
          rw [ho']
          simp only [Bool.false_eq_true, if_false]
          rw [if_neg hz]
        refine ⟨?_, ?_, ?_, ?_, ?_, ?_, ?_⟩
        · by_cases hz : maxAffordableQty F sk' (currentRealmRanks s id) (max 1 ⌊q⌋) s.qi ≤ 0
          · rw [hfail0 hz]; exact fun _ => rfl
          · cases hT : totalSkillCost F sk' (currentRealmRanks s id)
                (maxAffordableQty F sk' (currentRealmRanks s id) (max 1 ⌊q⌋) s.qi) with
            | fin c =>
                rw [hfin c hz hT]
                split_ifs with hlt
                · exact fun _ => rfl
                · intro hf; exact absurd hf (by simp)
            | inf =>
                rw [hnfin hz (by intro c hc; rw [hT] at hc; exact JSN.noConfusion hc)]
                exact fun _ => rfl
            | ninf =>
                rw [hnfin hz (by intro c hc; rw [hT] at hc; exact JSN.noConfusion hc)]
                exact fun _ => rfl
            | nan =>
                rw [hnfin hz (by intro c hc; rw [hT] at hc; exact JSN.noConfusion hc)]
                exact fun _ => rfl
        · intro sk h hfo c hT hsucc
          rw [Option.some.injEq] at h; subst h
          by_cases hz : maxAffordableQty F sk' (currentRealmRanks s id) (max 1 ⌊q⌋) s.qi ≤ 0
          · rw [hfail0 hz] at hsucc
            exact absurd hsucc (by simp)
          · rw [hfin c hz hT] at hsucc ⊢
            split_ifs at hsucc ⊢ with hlt
            rfl
        · intro sk h hto
          rw [Option.some.injEq] at h; subst h
          exact absurd (ho'.symm.trans hto) Bool.false_ne_true
        · intro sk h hfo hz
          rw [Option.some.injEq] at h; subst h
          exact hfail0 hz
        · intro sk h hfo hnf
          rw [Option.some.injEq] at h; subst h
          by_cases hz : maxAffordableQty F sk' (currentRealmRanks s id) (max 1 ⌊q⌋) s.qi ≤ 0
          · exact hfail0 hz
          · exact hnfin hz hnf
        · intro sk h hfo c hT hlt
          rw [Option.some.injEq] at h; subst h
          by_cases hz : maxAffordableQty F sk' (currentRealmRanks s id) (max 1 ⌊q⌋) s.qi ≤ 0
          · exact hfail0 hz
          · rw [hfin c hz hT, if_pos hlt]
        · intro h0
          by_cases hz : maxAffordableQty F sk' (currentRealmRanks s id) (max 1 ⌊q⌋) s.qi ≤ 0
          · rw [hfail0 hz]; exact h0
          · cases hT : totalSkillCost F sk' (currentRealmRanks s id)
                (maxAffordableQty F sk' (currentRealmRanks s id) (max 1 ⌊q⌋) s.qi) with
            | fin c =>
                rw [hfin c hz hT]
                split_ifs with hlt
                · exact h0
                · show (0 : ℚ) ≤ s.qi - c
                  have := not_lt.mp hlt
                  linarith
            | inf =>
                rw [hnfin hz (by intro c hc; rw [hT] at hc; exact JSN.noConfusion hc)]
                exact h0
            | ninf =>
                rw [hnfin hz (by intro c hc; rw [hT] at hc; exact JSN.noConfusion hc)]
                exact h0
            | nan =>
                rw [hnfin hz (by intro c hc; rw [hT] at hc; exact JSN.noConfusion hc)]
                exact h0

lemma cex_buy_qi0 : (defaultState cappedBal 0).qi = 0 := rfl

lemma cex_buy_afford :
    maxAffordableQty F0 cappedSkill
      (currentRealmRanks (defaultState cappedBal 0) "iron_body")
      (max 1 ⌊(5 : ℚ)⌋) (defaultState cappedBal 0).qi ≤ 0 := by
  unfold maxAffordableQty
  rw [if_pos (Or.inl (le_of_eq cex_buy_qi0))]

lemma cex_buy_getSkill : getSkill cappedBal "iron_body" = some cappedSkill := rfl

/-- Witness for C5: with an empty purse (`qi = 0`) the affordable quantity
of the capped ranked skill is `0`, and `buySkill` returns `false` leaving
the state untouched. -/
theorem buySkill_atomic_witness :
    buySkill F0 cappedBal (defaultState cappedBal 0) "iron_body" 5
      = (false, defaultState cappedBal 0) :=
  (buySkill_atomic F0 cappedBal (defaultState cappedBal 0) "iron_body" 5).2.2.2.1
    cappedSkill cex_buy_getSkill rfl cex_buy_afford

/-! ### C6: reentrancy rejection during reincarnation -/

/-- C6 (amended).  While `lifecycle.isReincarnating` is set, `tick` is a
complete no-op: the guard at the top of `tick` returns before any Qi,
lifespan or skill state is touched.  (The purchase path has NO such guard
— see the counterexample `buySkill_ignores_reincarnation_guard`.) -/
theorem tick_reincarnation_noop (F : TransFns) (bal : Balance) (w : World)
    (rawDt speed : ℚ) (nowMs : ℤ) (h : w.s.lifecycle.isReincarnating = true) :
    tick F bal w rawDt speed nowMs = w := by
  unfold tick
  split_ifs with h1 h2
  · rfl
  · rfl

/-- Witness for C6: a tick during a reincarnation changes nothing. -/
theorem tick_reincarnation_noop_witness :
    cexReincWorld.s.lifecycle.isReincarnating = true ∧
    tick F0 defaultBal cexReincWorld 1 1 0 = cexReincWorld :=
  ⟨rfl, tick_reincarnation_noop F0 defaultBal cexReincWorld 1 1 0 rfl⟩

lemma cex_reinc_getSkill :
    getSkill techBal "void_convergence"
      = some ⟨true, 10, 1, none, some (3 / 25), none, none⟩ := rfl

lemma cex_reinc_notPurchased :
    isTechniquePurchased cexReincState "void_convergence" = false := rfl

lemma cex_reinc_qi : cexReincState.qi = 50 := rfl

lemma cex_reinc_qi_ge : ¬ cexReincState.qi < (10 : ℚ) := by
  rw [cex_reinc_qi]; norm_num

lemma cex_reinc_buy :
    buySkill F0 techBal cexReincState "void_convergence" 1
      = (true, purchaseTechnique
          { cexReincState with qi := cexReincState.qi - 10 } "void_convergence") := by
  unfold buySkill
  rw [cex_reinc_getSkill]
  dsimp only
  rw [if_pos rfl]
  rw [if_neg (by rw [cex_reinc_notPurchased]; simp)]
  rw [if_neg cex_reinc_qi_ge]

/-- Counterexample for C6 as frozen: `buySkill` has no
`lifecycle.isReincarnating` guard (main.js lines 2006-2063 never read the
flag), so a purchase issued during an in-flight reincarnation succeeds and
mutates the state. -/
theorem buySkill_ignores_reincarnation_guard :
    cexReincState.lifecycle.isReincarnating = true ∧
    (buySkill F0 techBal cexReincState "void_convergence" 1).1 = true ∧
    (buySkill F0 techBal cexReincState "void_convergence" 1).2.qi
      = cexReincState.qi - 10 ∧
    (buySkill F0 techBal cexReincState "void_convergence" 1).2 ≠ cexReincState := by
  refine ⟨rfl, ?_, ?_, ?_⟩
  · rw [cex_reinc_buy]
  · rw [cex_reinc_buy]
    rfl
  · rw [cex_reinc_buy]
    intro heq
    have h2 := congrArg (fun t => t.skills "void_convergence") heq
    simp only [purchaseTechnique] at h2
    rw [if_pos trivial] at h2
    have h3 : cexReincState.skills "void_convergence" = none := rfl
    rw [h3] at h2
    exact Option.noConfusion h2

/-! ### C7: reincarnation reset postcondition -/

lemma ucc_qi (bal : Balance) (s : GState) : (updateCurrentCycle bal s).qi = s.qi := by
  unfold updateCurrentCycle; dsimp only; split_ifs <;> rfl

lemma ucc_realmIndex (bal : Balance) (s : GState) :
    (updateCurrentCycle bal s).realmIndex = s.realmIndex := by
  unfold updateCurrentCycle; dsimp only; split_ifs <;> rfl

lemma ucc_stage (bal : Balance) (s : GState) :
    (updateCurrentCycle bal s).stage = s.stage := by
  unfold updateCurrentCycle; dsimp only; split_ifs <;> rfl

lemma ucc_skills (bal : Balance) (s : GState) :
    (updateCurrentCycle bal s).skills = s.skills := by
  unfold updateCurrentCycle; dsimp only; split_ifs <;> rfl

lemma ucc_reinc (bal : Balance) (s : GState) :
    (updateCurrentCycle bal s).reinc = s.reinc := by
  unfold updateCurrentCycle; dsimp only; split_ifs <;> rfl

lemma ucc_meta (bal : Balance) (s : GState) :
    (updateCurrentCycle bal s).meta = s.meta := by
  unfold updateCurrentCycle; dsimp only; split_ifs <;> rfl

lemma ucc_flags (bal : Balance) (s : GState) :
    (updateCurrentCycle bal s).flags = s.flags := by
  unfold updateCurrentCycle; dsimp only; split_ifs <;> rfl

lemma refresh_qi (F : TransFns) (bal : Balance) (s : GState) :
    (refreshLifespanForRealm F bal s).qi = s.qi := by
  unfold refreshLifespanForRealm; repeat' split
  all_goals rfl

lemma refresh_realmIndex (F : TransFns) (bal : Balance) (s : GState) :
    (refreshLifespanForRealm F bal s).realmIndex = s.realmIndex := by
  unfold refreshLifespanForRealm; repeat' split
  all_goals rfl

lemma refresh_stage (F : TransFns) (bal : Balance) (s : GState) :
    (refreshLifespanForRealm F bal s).stage = s.stage := by
  unfold refreshLifespanForRealm; repeat' split
  all_goals rfl

lemma refresh_skills (F : TransFns) (bal : Balance) (s : GState) :
    (refreshLifespanForRealm F bal s).skills = s.skills := by
  unfold refreshLifespanForRealm; repeat' split
  all_goals rfl

lemma refresh_reinc (F : TransFns) (bal : Balance) (s : GState) :
    (refreshLifespanForRealm F bal s).reinc = s.reinc := by
  unfold refreshLifespanForRealm; repeat' split
  all_goals rfl

lemma refresh_meta (F : TransFns) (bal : Balance) (s : GState) :
    (refreshLifespanForRealm F bal s).meta = s.meta := by
  unfold refreshLifespanForRealm; repeat' split
  all_goals rfl

lemma refresh_flags (F : TransFns) (bal : Balance) (s : GState) :
    (refreshLifespanForRealm F bal s).flags = s.flags := by
  unfold refreshLifespanForRealm; repeat' split
  all_goals rfl

/-- C7.  Reincarnation reset postcondition, for all three `doReincarnate`
modes and for the death-flow reset `performDeathReincarnation` (with the
handler-computed gain `computeDeathKarma()`): Qi, realm, stage and the
skill ledger return to defaults; `reinc.karma` grows by exactly the
computed, strictly positive gain; `meta` (hence `unlockedSpeeds`) is
carried over unchanged; the persistent achievement flags are carried
forward (monotone — the mandatory-ST10 path upgrades them) while the
`lifespanHandled` latch is cleared; and the `isReincarnating` guard and
the pause flag are cleared at the end. -/
theorem reincarnation_reset (F : TransFns) (bal : Balance) (mode : ReincMode)
    (s : GState) (nowMs : ℤ) (hmk : 0 < bal.minKarma) :
    (doReincarnate F bal mode s nowMs).qi = 0 ∧
    (doReincarnate F bal mode s nowMs).realmIndex = 0 ∧
    (doReincarnate F bal mode s nowMs).stage = 1 ∧
    (doReincarnate F bal mode s nowMs).skills = (fun _ => none) ∧
    (doReincarnate F bal mode s nowMs).reinc.karma
      = s.reinc.karma +
        (if mode = ReincMode.death then computeDeathKarma bal s
         else computeVoluntaryKarma bal s) ∧
    (0 < if mode = ReincMode.death then computeDeathKarma bal s
         else computeVoluntaryKarma bal s) ∧
    (doReincarnate F bal mode s nowMs).meta = s.meta ∧
    (doReincarnate F bal mode s nowMs).flags.lifespanHandled = false ∧
    (s.flags.hasUnlockedSpiritCycle = true →
      (doReincarnate F bal mode s nowMs).flags.hasUnlockedSpiritCycle = true) ∧
    (s.flags.hasCompletedMandatoryST10 = true →
      (doReincarnate F bal mode s nowMs).flags.hasCompletedMandatoryST10 = true) ∧
    (s.flags.canManualReincarnate = true →
      (doReincarnate F bal mode s nowMs).flags.canManualReincarnate = true) ∧
    (s.flags.unlockedBeyondSpirit = true →
      (doReincarnate F bal mode s nowMs).flags.unlockedBeyondSpirit = true) ∧
    (doReincarnate F bal mode s nowMs).lifecycle.isReincarnating = false ∧
    (doReincarnate F bal mode s nowMs).timeSpeed.paused = false ∧
    (performDeathReincarnation F bal (computeDeathKarma bal s) s nowMs).qi = 0 ∧
    (performDeathReincarnation F bal (computeDeathKarma bal s) s nowMs).realmIndex = 0 ∧
    (performDeathReincarnation F bal (computeDeathKarma bal s) s nowMs).stage = 1 ∧
    (performDeathReincarnation F bal (computeDeathKarma bal s) s nowMs).skills
      = (fun _ => none) ∧
    (performDeathReincarnation F bal (computeDeathKarma bal s) s nowMs).reinc.karma
      = s.reinc.karma + computeDeathKarma bal s ∧
    0 < computeDeathKarma bal s ∧
    (performDeathReincarnation F bal (computeDeathKarma bal s) s nowMs).meta = s.meta ∧
    (performDeathReincarnation F bal (computeDeathKarma bal s) s nowMs).flags.lifespanHandled
      = false ∧
    (performDeathReincarnation F bal (computeDeathKarma bal s) s nowMs).lifecycle.isReincarnating
      = false ∧
    (performDeathReincarnation F bal (computeDeathKarma bal s) s nowMs).timeSpeed.paused
      = false := by
  have hdk : 0 < computeDeathKarma bal s := by
    unfold computeDeathKarma
    dsimp only
    exact lt_of_lt_of_le hmk (le_max_left _ _)
  have hvk : 0 < computeVoluntaryKarma bal s := by
    unfold computeVoluntaryKarma
    exact lt_of_lt_of_le hmk (le_max_left _ _)
  refine ⟨?_, ?_, ?_, ?_, ?_, ?_, ?_, ?_, ?_, ?_, ?_, ?_, ?_, ?_, ?_, ?_, ?_, ?_, ?_,
    hdk, ?_, ?_, ?_, ?_⟩
  · unfold doReincarnate
    dsimp only
    simp only [ucc_qi, refresh_qi]
    split_ifs <;> rfl
  · unfold doReincarnate
    dsimp only
    simp only [ucc_realmIndex, refresh_realmIndex]
  · unfold doReincarnate
    dsimp only
    simp only [ucc_stage, refresh_stage]
  · unfold doReincarnate
    dsimp only
    simp only [ucc_skills, refresh_skills]
    split_ifs <;> rfl
  · unfold doReincarnate
    dsimp only
    simp only [ucc_reinc, refresh_reinc]
    split_ifs <;> rfl
  · split_ifs
    · exact hdk
    · exact hvk
  · unfold doReincarnate
    dsimp only
    simp only [ucc_meta, refresh_meta]
    split_ifs <;> rfl
  · unfold doReincarnate
    dsimp only
    simp only [ucc_flags, refresh_flags]
  · intro h
    unfold doReincarnate
    dsimp only
    simp only [ucc_flags, refresh_flags]
    split_ifs <;> first | rfl | exact h
  · intro h
    unfold doReincarnate
    dsimp only
    simp only [ucc_flags, refresh_flags]
    split_ifs <;> first | rfl | exact h
  · intro h
    unfold doReincarnate
    dsimp only
    simp only [ucc_flags, refresh_flags]
    split_ifs <;> first | rfl | exact h
  · intro h
    unfold doReincarnate
    dsimp only
    simp only [ucc_flags, refresh_flags]
    split_ifs <;> first | rfl | exact h
  · rfl
  · rfl
  · unfold performDeathReincarnation
    dsimp only
    repeat' split
    all_goals rfl
  · unfold performDeathReincarnation
    dsimp only
    repeat' split
    all_goals rfl
  · unfold performDeathReincarnation
    dsimp only
    repeat' split
    all_goals rfl
  · unfold performDeathReincarnation
    dsimp only
    repeat' split
    all_goals rfl
  · unfold performDeathReincarnation
    dsimp only
    repeat' split
    all_goals rfl
  · unfold performDeathReincarnation
    dsimp only
    repeat' split
    all_goals rfl
  · unfold performDeathReincarnation
    dsimp only
    repeat' split
    all_goals rfl
  · rfl
  · rfl

lemma cex_minKarma_pos : (0 : ℚ) < defaultBal.minKarma := by
  norm_num [defaultBal]

/-- Witness for C7: a voluntary reincarnation at the default balance
resets Qi to 0. -/
theorem reincarnation_reset_witness :
    (0 : ℚ) < defaultBal.minKarma ∧
    (doReincarnate F0 defaultBal ReincMode.voluntary (defaultState defaultBal 0) 0).qi
      = 0 :=
  ⟨cex_minKarma_pos,
   (reincarnation_reset F0 defaultBal ReincMode.voluntary (defaultState defaultBal 0) 0
      cex_minKarma_pos).1⟩

/-! ### C8: balance-config sanitization -/

/-- C8.  The validator does NOT sanitize every input: (i) a config that
sets `timeSpeed` to an object with no `speeds`/`unlockRealmIndex` arrays
makes the validator spread `undefined` — a thrown `TypeError`, modelled as
`Except.error`; (ii) a config whose `lifespan` section has a well-formed
`realmMaxLifespan` but a missing (or non-numeric) `yearsPerSecond` is
"repaired" with the fallback `0.5`, which lies OUTSIDE the clamp range
`[0.005, 0.1]` that the same validator enforces on numeric values (the
last array entry is still forced to `null` as specified). -/
theorem validateBalanceConfig_behavior :
    validateBalanceConfig rawBadTimeSpeed 11
      = Except.error "TypeError: spread of undefined speeds or unlocks" ∧
    validateBalanceConfig rawMissingYps 11
      = Except.ok
          { timeSpeed := none,
            lifespan := some
              { realmMaxLifespan := some ((List.replicate 11 (some (100 : ℚ))).set 10 none),
                yearsPerSecond := some (1 / 2) } } ∧
    ¬ ((1 : ℚ) / 2 ≤ 1 / 10) := by
  refine ⟨rfl, rfl, by norm_num⟩

/-! ### C9: offline catch-up -/

lemma safeAddQi_lifespan (s : GState) (x : ℚ) :
    (safeAddQi s x).lifespan = s.lifespan := by
  unfold safeAddQi; split_ifs <;> rfl

lemma safeAddQi_age (s : GState) (x : ℚ) :
    (safeAddQi s x).age = s.age := (safeAddQi_preserves s x).1

lemma safeAddQi_qi_pos (s : GState) (x : ℚ) (hx : 0 < x) :
    (safeAddQi s x).qi = max 0 (min (s.qi + x) (10 ^ 300)) := by
  unfold safeAddQi; rw [if_neg (not_le.mpr hx)]

lemma getMaxLifespanS_safeAdd (F : TransFns) (bal : Balance) (s : GState) (x y : ℚ) :
    getMaxLifespanS F bal
      { safeAddQi s x with reinc := { (safeAddQi s x).reinc with lifetimeQi := y } }
      = getMaxLifespanS F bal s := by
  refine getMaxLifespanS_congr F bal s _ ?_ ?_
  · exact (safeAddQi_preserves s x).2.2.2.1
  · show (safeAddQi s x).reinc.karma = s.reinc.karma
    exact congrArg ReincS.karma (safeAddQi_preserves s x).2.2.2.2.1

lemma checkLifespanGate_qi (F : TransFns) (bal : Balance) (w : World) (n : ℤ) :
    (checkLifespanGate F bal w n).s.qi = w.s.qi :=
  (checkLifespanGate_preserves F bal w n).1

lemma checkLifespanGate_age (F : TransFns) (bal : Balance) (w : World) (n : ℤ) :
    (checkLifespanGate F bal w n).s.age = w.s.age :=
  (checkLifespanGate_preserves F bal w n).2.2

lemma checkLifespanGate_session (F : TransFns) (bal : Balance) (w : World) (n : ℤ) :
    (checkLifespanGate F bal w n).s.session = w.s.session := by
  unfold checkLifespanGate handleLifespanEndSync
  dsimp only
  split_ifs <;> try rfl
  repeat' split
  all_goals rfl

/-- The main offline catch-up computation: on a live mortal session with a
positive saved speed and at least one elapsed second, the resulting Qi,
age and session marker. -/
lemma offElapsedSec_eq (sess : SessionS) (nowMs : ℤ) :
    max 0 ⌊((nowMs - sess.lastTs : ℤ) : ℚ) / 1000⌋ = offElapsedSec sess nowMs := rfl

lemma offCappedSec_eq (bal : Balance) (sess : SessionS) (nowMs : ℤ) :
    min ((offElapsedSec sess nowMs : ℤ) : ℚ) (bal.capHours * 3600)
      = offCappedSec bal sess nowMs := rfl

lemma effYps_eq (bal : Balance) :
    (if bal.yearsPerSecond = 0 then (1 : ℚ) else bal.yearsPerSecond) = effYps bal := rfl

lemma applyOffline_main (F : TransFns) (bal : Balance) (w : World) (nowMs : ℤ)
    (sess : SessionS) (lm : ℚ)
    (hsess : w.s.session = some sess) (hts : sess.lastTs ≠ 0)
    (hsp : 0 < sess.lastSpeed) (helap : 1 ≤ offElapsedSec sess nowMs)
    (himm : isImmortal F bal w.s = false) (hlm : w.s.lifespan.max = some lm) :
    (applyOfflineProgressOnResume F bal w nowMs).s.qi =
      (if 0 < totalQPS F bal w.s * offCappedSec bal sess nowMs * totalOfflineMult F bal w.s
       then max 0 (min (w.s.qi + totalQPS F bal w.s * offCappedSec bal sess nowMs *
         totalOfflineMult F bal w.s) (10 ^ 300))
       else w.s.qi) ∧
    (applyOfflineProgressOnResume F bal w nowMs).s.age =
      max 0 (min (w.s.age + offCappedSec bal sess nowMs * sess.lastSpeed * effYps bal) lm) ∧
    (applyOfflineProgressOnResume F bal w nowMs).s.session = none := by
  have helap' : (1 : ℤ) ≤ max 0 ⌊((nowMs - sess.lastTs : ℤ) : ℚ) / 1000⌋ := helap
  have himm' : (getMaxLifespanS F bal w.s).isNone = false := himm
  unfold applyOfflineProgressOnResume
  rw [hsess]
  dsimp only
  rw [if_neg hts, if_neg (not_le.mpr hsp), if_neg (not_lt.mpr helap')]
  simp only [offElapsedSec_eq, offCappedSec_eq, effYps_eq]
  by_cases hq : 0 < totalQPS F bal w.s * offCappedSec bal sess nowMs * totalOfflineMult F bal w.s
  · rw [if_pos hq]
    dsimp only
    simp only [isImmortal, getMaxLifespanS_safeAdd]
    simp only [himm', Bool.false_eq_true, not_false_eq_true, safeAddQi_lifespan, safeAddQi_age,
      hlm, ne_eq, Option.some_ne_none, true_and, and_true, and_self, if_true]
    rw [if_pos hq, safeAddQi_qi_pos _ _ hq]
    split_ifs with hdeath
    · simp only [checkLifespanGate_qi, checkLifespanGate_age, checkLifespanGate_session]
      refine ⟨?_, ?_, ?_⟩ <;> trivial
    · refine ⟨?_, ?_, ?_⟩ <;> trivial
  · rw [if_neg hq]
    simp only [isImmortal, himm', Bool.false_eq_true, not_false_eq_true, hlm, ne_eq,
      Option.some_ne_none, true_and, and_true, and_self, if_true]
    rw [if_neg hq]
    split_ifs with hdeath
    · simp only [checkLifespanGate_qi, checkLifespanGate_age, checkLifespanGate_session]
      refine ⟨?_, ?_, ?_⟩ <;> trivial
    · refine ⟨?_, ?_, ?_⟩ <;> trivial

/-- C9 (amended).  Offline catch-up on resume: with a session snapshot
whose `lastSpeed > 0` and at least one elapsed second, (i) the Qi added is
`totalQPS() · cappedSeconds · totalOfflineMult()` — independent of
`lastSpeed` — but routed through `safeAddQi`, hence clamped into
`[0, 1e300]` and skipped entirely when the gain is not positive; (ii) the
age increase is `cappedSeconds · lastSpeed · yearsPerSecond` but clamped
at the realm lifespan cap `lm`; (iii) the session marker is cleared before
returning; (iv) a second call with the cleared marker is a complete no-op;
(v) with `lastSpeed ≤ 0` no Qi and no aging is applied. -/
theorem offline_catchup (F : TransFns) (bal : Balance) (w : World) (nowMs : ℤ)
    (sess : SessionS) (lm : ℚ)
    (hsess : w.s.session = some sess) (hts : sess.lastTs ≠ 0)
    (hsp : 0 < sess.lastSpeed) (helap : 1 ≤ offElapsedSec sess nowMs)
    (himm : isImmortal F bal w.s = false) (hlm : w.s.lifespan.max = some lm) :
    (applyOfflineProgressOnResume F bal w nowMs).s.qi =
      (if 0 < totalQPS F bal w.s * offCappedSec bal sess nowMs * totalOfflineMult F bal w.s
       then max 0 (min (w.s.qi + totalQPS F bal w.s * offCappedSec bal sess nowMs *
         totalOfflineMult F bal w.s) (10 ^ 300))
       else w.s.qi) ∧
    (applyOfflineProgressOnResume F bal w nowMs).s.age =
      max 0 (min (w.s.age + offCappedSec bal sess nowMs * sess.lastSpeed * effYps bal) lm) ∧
    (applyOfflineProgressOnResume F bal w nowMs).s.session = none ∧
    (∀ w2 : World, ∀ n2 : ℤ, w2.s.session = none →
      applyOfflineProgressOnResume F bal w2 n2 = w2) ∧
    (∀ w3 : World, ∀ sess3 : SessionS, ∀ n3 : ℤ, w3.s.session = some sess3 →
      sess3.lastSpeed ≤ 0 →
      (applyOfflineProgressOnResume F bal w3 n3).s.qi = w3.s.qi ∧
      (applyOfflineProgressOnResume F bal w3 n3).s.age = w3.s.age) := by
  obtain ⟨hqi, hage, hses⟩ :=
    applyOffline_main F bal w nowMs sess lm hsess hts hsp helap himm hlm
  refine ⟨hqi, hage, hses, ?_, ?_⟩
  · intro w2 n2 h2n
    unfold applyOfflineProgressOnResume
    rw [h2n]
    dsimp only
    rw [← h2n]
  · intro w3 sess3 n3 h3n h30
    unfold applyOfflineProgressOnResume
    rw [h3n]
    dsimp only
    by_cases ht : sess3.lastTs = 0
    · rw [if_pos ht]
      exact ⟨rfl, rfl⟩
    · rw [if_neg ht, if_pos h30]
      exact ⟨rfl, rfl⟩

lemma cex_off_sess : cexOfflineWorld.s.session = some ⟨1000, 4, 1, 0⟩ := rfl

lemma cex_off_ts : (⟨1000, 4, 1, 0⟩ : SessionS).lastTs ≠ 0 := by decide

lemma cex_off_sp : (0 : ℚ) < (⟨1000, 4, 1, 0⟩ : SessionS).lastSpeed := by
  show (0 : ℚ) < 4
  norm_num

lemma cex_off_elap : 1 ≤ offElapsedSec ⟨1000, 4, 1, 0⟩ 101000 := by
  unfold offElapsedSec
  norm_num

lemma cex_off_maxL : getMaxLifespanS F0 defaultBal cexOfflineWorld.s = some 100 := by
  unfold getMaxLifespanS getMaxLifespan karmaLifeMult F0
  norm_num [defaultBal, cexOfflineWorld, defaultState]

lemma cex_off_imm : isImmortal F0 defaultBal cexOfflineWorld.s = false := by
  unfold isImmortal
  rw [cex_off_maxL]
  rfl

lemma cex_off_lm : cexOfflineWorld.s.lifespan.max = some 100 := rfl

/-- Witness for C9: the suspended session of `cexOfflineWorld` is consumed
and cleared by the resume pass. -/
theorem offline_catchup_witness :
    cexOfflineWorld.s.session = some ⟨1000, 4, 1, 0⟩ ∧
    (applyOfflineProgressOnResume F0 defaultBal cexOfflineWorld 101000).s.session = none :=
  ⟨cex_off_sess,
   (offline_catchup F0 defaultBal cexOfflineWorld 101000 ⟨1000, 4, 1, 0⟩ 100
      cex_off_sess cex_off_ts cex_off_sp cex_off_elap cex_off_imm cex_off_lm).2.2.1⟩

lemma cex_off_age_eval :
    (applyOfflineProgressOnResume F0 defaultBal cexOfflineWorld 101000).s.age = 100 := by
  have h := (applyOffline_main F0 defaultBal cexOfflineWorld 101000 ⟨1000, 4, 1, 0⟩ 100
    cex_off_sess cex_off_ts cex_off_sp cex_off_elap cex_off_imm cex_off_lm).2.1
  rw [h]
  norm_num [offCappedSec, offElapsedSec, effYps, defaultBal, cexOfflineWorld, defaultState]

/-- Counterexample for C9 as frozen: at 100 capped offline seconds with
saved speed 4 and `yearsPerSecond = 1/10`, the advertised age increase is
`100 · 4 · (1/10) = 40` years, but the state only ages 1 year — the
increase is clamped at the 100-year realm lifespan cap. -/
theorem offline_age_clamped :
    (applyOfflineProgressOnResume F0 defaultBal cexOfflineWorld 101000).s.age
      = cexOfflineWorld.s.age + 1 ∧
    offCappedSec defaultBal ⟨1000, 4, 1, 0⟩ 101000 * (4 : ℚ) * effYps defaultBal = 40 ∧
    (cexOfflineWorld.s.age + 1 : ℚ) ≠ cexOfflineWorld.s.age + 40 := by
  refine ⟨?_, ?_, ?_⟩
  · rw [cex_off_age_eval]
    show (100 : ℚ) = 99 + 1
    norm_num
  · norm_num [offCappedSec, offElapsedSec, effYps, defaultBal]
  · show (99 : ℚ) + 1 ≠ 99 + 40
    norm_num

end Xianxia
